import Mathlib

/-! Input polling layer of `gk2` (`Motyl/gk2_input.h`).

A shallow embedding of `gk2::KeyboardState` and of the retry loop
`gk2::DeviceBase<TState>::GetState`, together with the properties of the
polling contract.

The DirectInput driver behind `m_device` is an arbitrary state machine: every
call may change the driver state, and a state read may change the destination
buffer.  A run of `GetState` is instrumented with the list of driver calls it
made, in order.
-/

namespace gk2

/-! ## Platform status codes -/

/-- Native status code (`HRESULT`, a signed 32-bit integer). -/
abbrev HRESULT := Int

/-- Modelled from the spec: the platform test `SUCCEEDED(hr)` comes from the
Windows headers, which are not part of the sources; a status is a success
exactly when it is non-negative. -/
def SUCCEEDED (hr : HRESULT) : Bool := decide (0 ≤ hr)

/-- Modelled from the spec: the status "input stream lost" comes from the
DirectInput headers, which are not part of the sources; its value there is
`0x8007001E` read as a signed 32-bit integer. -/
def DIERR_INPUTLOST : HRESULT := -2147024866

/-- Modelled from the spec: the status "device not currently acquired" comes
from the DirectInput headers, which are not part of the sources; its value
there is `0x8007000C` read as a signed 32-bit integer. -/
def DIERR_NOTACQUIRED : HRESULT := -2147024884

/-- Modelled from the spec: the status "access denied" comes from the Windows
headers, which are not part of the sources; its value there is `0x80070005`
read as a signed 32-bit integer. -/
def E_ACCESSDENIED : HRESULT := -2147024891

/-! ## The driver behind `m_device` -/

/-- What one `GetDeviceState(size, ptr)` call gives back: the status, the
contents of the destination buffer after the call and the next driver state. -/
structure ReadResult (σ β : Type) where
  status : HRESULT
  buf : β
  dev : σ

/-- What one `Acquire()` call gives back: the status and the next driver
state. -/
structure AcquireResult (σ : Type) where
  status : HRESULT
  dev : σ

/-- The two operations of `IDirectInputDevice8W` that `GetState` uses, over a
driver state `σ` and destination buffers `β`. -/
structure IDirectInputDevice8W (σ β : Type) where
  GetDeviceState : σ → Nat → β → ReadResult σ β
  Acquire : σ → AcquireResult σ

/-- One driver round-trip of a run: a state read with its status and the
buffer contents it left, or an acquire call with its status. -/
inductive DriverCall (β : Type) where
  | read (status : HRESULT) (data : β)
  | acquire (status : HRESULT)
  deriving DecidableEq

/-- Modelled from the spec: the error path `THROW_DX11(result)` comes from
`gk2_exceptions.h`, which is not part of the sources; it leaves the function
by raising an error that carries the status code.  A call of `GetState` ends
either by `return` with a boolean or by such a raise. -/
inductive Outcome where
  | returned (value : Bool)
  | raised (code : HRESULT)
  deriving DecidableEq

/-- A finished inner loop: the code raised (if any), the driver state and the
acquire calls made. -/
structure AcquireRun (σ β : Type) where
  raised : Option HRESULT
  dev : σ
  calls : List (DriverCall β)

/-- A finished call: how it ended, the destination buffer, the driver state
and the driver calls made, in order. -/
structure Run (δ β : Type) where
  outcome : Outcome
  buf : β
  dev : δ
  calls : List (DriverCall β)

/-! ## `DeviceBase::GetState` -/

/-- `DeviceBase::GET_STATE_RETRIES`. -/
def GET_STATE_RETRIES : Nat := 2

/-- `DeviceBase::AQUIRE_RETRIES`. -/
def AQUIRE_RETRIES : Nat := 2

/-- The inner loop `for (auto j = 0; j < AQUIRE_RETRIES; ++j)` of `GetState`,
with `n` iterations left: acquire, `break` on success, raise on a status other
than `DIERR_INPUTLOST` and `E_ACCESSDENIED`, otherwise go round again. -/
def acquireLoop {σ β : Type} (d : IDirectInputDevice8W σ β) : Nat → σ → AcquireRun σ β
  | 0, s => ⟨none, s, []⟩
  | n + 1, s =>
    let a := d.Acquire s
    if SUCCEEDED a.status then
      ⟨none, a.dev, [DriverCall.acquire a.status]⟩
    else if a.status ≠ DIERR_INPUTLOST ∧ a.status ≠ E_ACCESSDENIED then
      ⟨some a.status, a.dev, [DriverCall.acquire a.status]⟩
    else
      let rest := acquireLoop d n a.dev
      ⟨rest.raised, rest.dev, DriverCall.acquire a.status :: rest.calls⟩

/-- The outer loop `for (auto i = 0; i < GET_STATE_RETRIES; ++i)` of
`GetState`, with `n` iterations left, and the `return false` after it. -/
def stateLoop {σ β : Type} (d : IDirectInputDevice8W σ β) (size : Nat) :
    Nat → σ → β → Run σ β
  | 0, s, ptr => ⟨Outcome.returned false, ptr, s, []⟩
  | n + 1, s, ptr =>
    let r := d.GetDeviceState s size ptr
    if SUCCEEDED r.status then
      ⟨Outcome.returned true, r.buf, r.dev, [DriverCall.read r.status r.buf]⟩
    else if r.status ≠ DIERR_INPUTLOST ∧ r.status ≠ DIERR_NOTACQUIRED then
      ⟨Outcome.raised r.status, r.buf, r.dev, [DriverCall.read r.status r.buf]⟩
    else
      let a := acquireLoop d AQUIRE_RETRIES r.dev
      match a.raised with
      | some code =>
        ⟨Outcome.raised code, r.buf, a.dev, DriverCall.read r.status r.buf :: a.calls⟩
      | none =>
        let rest := stateLoop d size n a.dev r.buf
        ⟨rest.outcome, rest.buf, rest.dev,
          DriverCall.read r.status r.buf :: (a.calls ++ rest.calls)⟩

/-- `DeviceBase::GetState(size, ptr)`: `m_device` is the handle (`none` when
it is null, otherwise the state of the driver behind it). -/
def GetState {σ β : Type} (d : IDirectInputDevice8W σ β) (m_device : Option σ)
    (size : Nat) (ptr : β) : Run (Option σ) β :=
  match m_device with
  | none => ⟨Outcome.returned false, ptr, none, []⟩
  | some s =>
    let r := stateLoop d size GET_STATE_RETRIES s ptr
    ⟨r.outcome, r.buf, some r.dev, r.calls⟩

/-! ## Reading a run -/

/-- Whether a driver call is a state read. -/
def DriverCall.isRead {β : Type} : DriverCall β → Bool
  | DriverCall.read _ _ => true
  | DriverCall.acquire _ => false

/-- Whether a driver call is an acquire. -/
def DriverCall.isAcquire {β : Type} : DriverCall β → Bool
  | DriverCall.read _ _ => false
  | DriverCall.acquire _ => true

/-- Number of state reads among the calls. -/
def readCount {β : Type} (calls : List (DriverCall β)) : Nat :=
  calls.countP DriverCall.isRead

/-- Number of acquire calls among the calls. -/
def acquireCount {β : Type} (calls : List (DriverCall β)) : Nat :=
  calls.countP DriverCall.isAcquire

/-! ## A scripted driver

The driver state is the list of replies still to come; every call takes the
next one.  A read reply carries the data the driver has for the buffer, which
it writes only with a success status. -/

/-- Generic failure status `E_FAIL` (`0x80004005`), given once the script is
used up. -/
def E_FAIL : HRESULT := -2147467259

/-- Scripted driver over buffers `β`. -/
def scripted (β : Type) : IDirectInputDevice8W (List (HRESULT × β)) β where
  GetDeviceState := fun s _ ptr =>
    match s with
    | [] => ⟨E_FAIL, ptr, []⟩
    | (hr, data) :: rest => ⟨hr, if SUCCEEDED hr then data else ptr, rest⟩
  Acquire := fun s =>
    match s with
    | [] => ⟨E_FAIL, []⟩
    | (hr, _) :: rest => ⟨hr, rest⟩

/-- A driver that has lost the device: every read fails with
`DIERR_NOTACQUIRED` after adding 10 to the buffer, and every acquire fails
with `DIERR_INPUTLOST`. -/
def scribbling : IDirectInputDevice8W Unit Nat where
  GetDeviceState := fun s _ ptr => ⟨DIERR_NOTACQUIRED, ptr + 10, s⟩
  Acquire := fun s => ⟨DIERR_INPUTLOST, s⟩

/-! ## `KeyboardState` -/

/-- `KeyboardState::STATE_TAB_LENGTH`. -/
def STATE_TAB_LENGTH : Nat := 256

/-- `KeyboardState::KEY_MASK`. -/
def KEY_MASK : Nat := 0x80

/-- An 8-bit `BYTE`. -/
abbrev BYTE := Fin 256

/-- `KeyboardState`: the array `BYTE m_keys[STATE_TAB_LENGTH]`. -/
structure KeyboardState where
  m_keys : Fin STATE_TAB_LENGTH → BYTE

/-- The subscript `m_keys[keyCode]`: an 8-bit key code as a position of the
array. -/
def KeyboardState.byteAt (k : KeyboardState) (keyCode : BYTE) : BYTE :=
  k.m_keys ⟨keyCode.val, keyCode.isLt⟩

/-- `KeyboardState::isKeyDown`. -/
def KeyboardState.isKeyDown (k : KeyboardState) (keyCode : BYTE) : Bool :=
  decide (0 ≠ (k.byteAt keyCode).val &&& KEY_MASK)

/-- `KeyboardState::isKeyUp`. -/
def KeyboardState.isKeyUp (k : KeyboardState) (keyCode : BYTE) : Bool :=
  decide (0 = (k.byteAt keyCode).val &&& KEY_MASK)

/-- `KeyboardState::operator[]`. -/
def KeyboardState.subscript (k : KeyboardState) (keyCode : BYTE) : Bool :=
  decide (0 ≠ (k.byteAt keyCode).val &&& KEY_MASK)

/-- `sizeof(char)`. -/
def sizeof_char : Nat := 1

/-- `ZeroMemory(dst, n)` on an array of `len` bytes: the first `n` bytes
become zero, the others stay. -/
def ZeroMemory {len : Nat} (dst : Fin len → BYTE) (n : Nat) : Fin len → BYTE :=
  fun i => if i.val < n then 0 else dst i

/-- `memcpy(dst, src, n)` on arrays of `len` bytes: the first `n` bytes come
from `src`, the others stay. -/
def memcpy {len : Nat} (dst src : Fin len → BYTE) (n : Nat) : Fin len → BYTE :=
  fun i => if i.val < n then src i else dst i

/-- `KeyboardState::KeyboardState()`; `raw` is the storage before the
constructor body runs. -/
def KeyboardState.init (raw : KeyboardState) : KeyboardState :=
  ⟨ZeroMemory raw.m_keys (STATE_TAB_LENGTH * sizeof_char)⟩

/-- `KeyboardState::KeyboardState(const KeyboardState& other)`; `raw` is the
storage before the constructor body runs. -/
def KeyboardState.copy (raw other : KeyboardState) : KeyboardState :=
  ⟨memcpy raw.m_keys other.m_keys (STATE_TAB_LENGTH * sizeof_char)⟩

/-- `KeyboardState::operator=`: the value of `*this` after `*this = other`. -/
def KeyboardState.assign (self other : KeyboardState) : KeyboardState :=
  ⟨memcpy self.m_keys other.m_keys (STATE_TAB_LENGTH * sizeof_char)⟩

/-! ## `MouseState` -/

/-- A signed 32-bit `LONG`. -/
abbrev LONG := Int

/-- Modelled from the spec: the record `DIMOUSESTATE` comes from the
DirectInput headers, which are not part of the sources; it holds the relative
X/Y motion, the relative wheel motion and 4 button bytes. -/
structure DIMOUSESTATE where
  lX : LONG
  lY : LONG
  lZ : LONG
  rgbButtons : Fin 4 → BYTE

/-- Modelled from the spec: the record `POINT` comes from the Windows headers,
which are not part of the sources; it is a pair of `LONG` coordinates. -/
structure POINT where
  x : LONG
  y : LONG
  deriving DecidableEq

/-- `MouseState::BUTTON_MASK`. -/
def BUTTON_MASK : Nat := 0x80

/-- `MouseState`: the sample `DIMOUSESTATE m_state`. -/
structure MouseState where
  m_state : DIMOUSESTATE

/-- `MouseState::MouseState()`: `ZeroMemory` over all `sizeof(DIMOUSESTATE)`
bytes of `m_state`, so every field is zero. -/
def MouseState.init : MouseState :=
  ⟨⟨0, 0, 0, fun _ => 0⟩⟩

/-- `MouseState::MouseState(const MouseState& other)`: `memcpy` over all
`sizeof(DIMOUSESTATE)` bytes of `m_state`, so every field comes from `other`. -/
def MouseState.copy (other : MouseState) : MouseState :=
  ⟨⟨other.m_state.lX, other.m_state.lY, other.m_state.lZ, other.m_state.rgbButtons⟩⟩

/-- `MouseState::operator=`: the value of `*this` after `*this = other`
(`memcpy` over all `sizeof(DIMOUSESTATE)` bytes of `m_state`). -/
def MouseState.assign (_self other : MouseState) : MouseState :=
  ⟨⟨other.m_state.lX, other.m_state.lY, other.m_state.lZ, other.m_state.rgbButtons⟩⟩

/-- `MouseState::getMousePositionChange`. -/
def MouseState.getMousePositionChange (m : MouseState) : POINT :=
  ⟨m.m_state.lX, m.m_state.lY⟩

/-- `MouseState::getWheelPositionChange`. -/
def MouseState.getWheelPositionChange (m : MouseState) : LONG :=
  m.m_state.lZ

/-- `MouseState::isButtonDown`; `none` is the failed `assert(button < 4)`. -/
def MouseState.isButtonDown (m : MouseState) (button : BYTE) : Option Bool :=
  if h : button.val < 4 then
    some (decide (0 ≠ (m.m_state.rgbButtons ⟨button.val, h⟩).val &&& BUTTON_MASK))
  else none

/-- `MouseState::isButtonUp`; `none` is the failed `assert(button < 4)`. -/
def MouseState.isButtonUp (m : MouseState) (button : BYTE) : Option Bool :=
  if h : button.val < 4 then
    some (decide (0 = (m.m_state.rgbButtons ⟨button.val, h⟩).val &&& BUTTON_MASK))
  else none

/-- `MouseState::operator[]`; `none` is the failed `assert(button < 4)`. -/
def MouseState.subscript (m : MouseState) (button : BYTE) : Option Bool :=
  if h : button.val < 4 then
    some (decide (0 ≠ (m.m_state.rgbButtons ⟨button.val, h⟩).val &&& BUTTON_MASK))
  else none

/-! ## Lemmas on the two loops -/

section Lemmas

variable {σ β : Type}

theorem append_eq_split {α : Type} {c : α} {post l2 : List α} :
    ∀ (l1 pre : List α), l1 ++ l2 = pre ++ c :: post →
      (∃ m, l1 = pre ++ c :: m ∧ post = m ++ l2) ∨ (∃ m, pre = l1 ++ m ∧ l2 = m ++ c :: post)
  | [], pre, h => Or.inr ⟨pre, by simp, by simpa using h⟩
  | x :: l1, [], h => by
    simp only [List.cons_append, List.nil_append, List.cons.injEq] at h
    exact Or.inl ⟨l1, by simp [h.1], h.2.symm⟩
  | x :: l1, y :: pre, h => by
    simp only [List.cons_append, List.cons.injEq] at h
    rcases append_eq_split l1 pre h.2 with ⟨m, h1, h2⟩ | ⟨m, h1, h2⟩
    · exact Or.inl ⟨m, by simp [h.1, h1], h2⟩
    · exact Or.inr ⟨m, by simp [h.1, h1], h2⟩

theorem acquireLoop_succ (d : IDirectInputDevice8W σ β) (n : Nat) (s : σ) :
    acquireLoop d (n + 1) s =
      if SUCCEEDED (d.Acquire s).status then
        ⟨none, (d.Acquire s).dev, [DriverCall.acquire (d.Acquire s).status]⟩
      else if (d.Acquire s).status ≠ DIERR_INPUTLOST ∧ (d.Acquire s).status ≠ E_ACCESSDENIED then
        ⟨some (d.Acquire s).status, (d.Acquire s).dev, [DriverCall.acquire (d.Acquire s).status]⟩
      else
        ⟨(acquireLoop d n (d.Acquire s).dev).raised, (acquireLoop d n (d.Acquire s).dev).dev,
          DriverCall.acquire (d.Acquire s).status :: (acquireLoop d n (d.Acquire s).dev).calls⟩ :=
  rfl

/-- Every call of the inner loop is an acquire. -/
theorem acquireLoop_calls_acquire (d : IDirectInputDevice8W σ β) :
    ∀ (n : Nat) (s : σ) (c : DriverCall β), c ∈ (acquireLoop d n s).calls → c.isAcquire = true := by
  intro n
  induction n with
  | zero => intro s c h; simp [acquireLoop] at h
  | succ n ih =>
    intro s c h
    rw [acquireLoop_succ] at h
    split_ifs at h with h1 h2
    · simp at h; subst h; rfl
    · simp at h; subst h; rfl
    · simp only [List.mem_cons] at h
      rcases h with h | h
      · subst h; rfl
      · exact ih _ c h

/-- The inner loop makes at most as many acquire calls as it has iterations. -/
theorem acquireLoop_calls_length (d : IDirectInputDevice8W σ β) :
    ∀ (n : Nat) (s : σ), (acquireLoop d n s).calls.length ≤ n := by
  intro n
  induction n with
  | zero => intro s; simp [acquireLoop]
  | succ n ih =>
    intro s
    rw [acquireLoop_succ]
    split_ifs with h1 h2
    · simp
    · simp
    · simpa using ih _

/-- In the inner loop an acquire whose status is a failure other than
`DIERR_INPUTLOST` and `E_ACCESSDENIED` is raised and is the last call. -/
theorem acquireLoop_fatal (d : IDirectInputDevice8W σ β) :
    ∀ (n : Nat) (s : σ) (pre post : List (DriverCall β)) (hr : HRESULT),
      (acquireLoop d n s).calls = pre ++ DriverCall.acquire hr :: post →
      SUCCEEDED hr = false → hr ≠ DIERR_INPUTLOST → hr ≠ E_ACCESSDENIED →
      (acquireLoop d n s).raised = some hr ∧ post = [] := by
  intro n
  induction n with
  | zero => intro s pre post hr h; simp [acquireLoop] at h
  | succ n ih =>
    intro s pre post hr h hs hl ha
    rw [acquireLoop_succ] at h ⊢
    split_ifs at h ⊢ with h1 h2
    · cases pre with
      | nil => simp at h; rw [← h.1] at hs; simp [hs] at h1
      | cons x pre => simp at h
    · cases pre with
      | nil => simp at h; simp [h.1, h.2]
      | cons x pre => simp at h
    · cases pre with
      | nil =>
        simp at h
        rw [h.1] at h2
        exact absurd ⟨hl, ha⟩ h2
      | cons x pre =>
        simp only [List.cons_append, List.cons.injEq] at h
        exact ih _ pre post hr h.2 hs hl ha

/-- When the inner loop raises, the code raised is the status of its last
acquire, a failure other than `DIERR_INPUTLOST` and `E_ACCESSDENIED`. -/
theorem acquireLoop_raised (d : IDirectInputDevice8W σ β) :
    ∀ (n : Nat) (s : σ) (code : HRESULT), (acquireLoop d n s).raised = some code →
      (∃ pre, (acquireLoop d n s).calls = pre ++ [DriverCall.acquire code]) ∧
        SUCCEEDED code = false ∧ code ≠ DIERR_INPUTLOST ∧ code ≠ E_ACCESSDENIED := by
  intro n
  induction n with
  | zero => intro s code h; simp [acquireLoop] at h
  | succ n ih =>
    intro s code h
    rw [acquireLoop_succ] at h ⊢
    split_ifs at h ⊢ with h1 h2
    · simp only [Option.some.injEq] at h
      subst h
      exact ⟨⟨[], rfl⟩, by simpa using h1, h2.1, h2.2⟩
    · obtain ⟨⟨pre, hp⟩, hrest⟩ := ih _ code h
      exact ⟨⟨DriverCall.acquire (d.Acquire s).status :: pre, by simp [hp]⟩, hrest⟩


/-- The four ways one iteration of the outer loop can go: the read succeeds;
the read fails with a status that is raised; the read fails with a transient
status and the inner loop raises; the read fails with a transient status, the
inner loop ends without raising and the outer loop goes on. -/
theorem stateLoop_succ_cases (d : IDirectInputDevice8W σ β) (size n : Nat) (s : σ) (ptr : β) :
    (SUCCEEDED (d.GetDeviceState s size ptr).status = true ∧
      stateLoop d size (n + 1) s ptr =
        ⟨Outcome.returned true, (d.GetDeviceState s size ptr).buf,
          (d.GetDeviceState s size ptr).dev,
          [DriverCall.read (d.GetDeviceState s size ptr).status
            (d.GetDeviceState s size ptr).buf]⟩) ∨
    (SUCCEEDED (d.GetDeviceState s size ptr).status = false ∧
      ((d.GetDeviceState s size ptr).status ≠ DIERR_INPUTLOST ∧
        (d.GetDeviceState s size ptr).status ≠ DIERR_NOTACQUIRED) ∧
      stateLoop d size (n + 1) s ptr =
        ⟨Outcome.raised (d.GetDeviceState s size ptr).status, (d.GetDeviceState s size ptr).buf,
          (d.GetDeviceState s size ptr).dev,
          [DriverCall.read (d.GetDeviceState s size ptr).status
            (d.GetDeviceState s size ptr).buf]⟩) ∨
    (SUCCEEDED (d.GetDeviceState s size ptr).status = false ∧
      ((d.GetDeviceState s size ptr).status = DIERR_INPUTLOST ∨
        (d.GetDeviceState s size ptr).status = DIERR_NOTACQUIRED) ∧
      ∃ code,
        (acquireLoop d AQUIRE_RETRIES (d.GetDeviceState s size ptr).dev :
          AcquireRun σ β).raised = some code ∧
        stateLoop d size (n + 1) s ptr =
          ⟨Outcome.raised code, (d.GetDeviceState s size ptr).buf,
            (acquireLoop d AQUIRE_RETRIES (d.GetDeviceState s size ptr).dev :
              AcquireRun σ β).dev,
            DriverCall.read (d.GetDeviceState s size ptr).status
                (d.GetDeviceState s size ptr).buf ::
              (acquireLoop d AQUIRE_RETRIES (d.GetDeviceState s size ptr).dev).calls⟩) ∨
    (SUCCEEDED (d.GetDeviceState s size ptr).status = false ∧
      ((d.GetDeviceState s size ptr).status = DIERR_INPUTLOST ∨
        (d.GetDeviceState s size ptr).status = DIERR_NOTACQUIRED) ∧
      (acquireLoop d AQUIRE_RETRIES (d.GetDeviceState s size ptr).dev :
        AcquireRun σ β).raised = none ∧
      stateLoop d size (n + 1) s ptr =
        ⟨(stateLoop d size n
            (acquireLoop d AQUIRE_RETRIES (d.GetDeviceState s size ptr).dev :
              AcquireRun σ β).dev
            (d.GetDeviceState s size ptr).buf).outcome,
          (stateLoop d size n
            (acquireLoop d AQUIRE_RETRIES (d.GetDeviceState s size ptr).dev :
              AcquireRun σ β).dev
            (d.GetDeviceState s size ptr).buf).buf,
          (stateLoop d size n
            (acquireLoop d AQUIRE_RETRIES (d.GetDeviceState s size ptr).dev :
              AcquireRun σ β).dev
            (d.GetDeviceState s size ptr).buf).dev,
          DriverCall.read (d.GetDeviceState s size ptr).status
              (d.GetDeviceState s size ptr).buf ::
            ((acquireLoop d AQUIRE_RETRIES (d.GetDeviceState s size ptr).dev).calls ++
              (stateLoop d size n
                (acquireLoop d AQUIRE_RETRIES (d.GetDeviceState s size ptr).dev :
                  AcquireRun σ β).dev
                (d.GetDeviceState s size ptr).buf).calls)⟩) := by
  by_cases h : SUCCEEDED (d.GetDeviceState s size ptr).status = true
  · exact Or.inl ⟨h, by simp [stateLoop, h]⟩
  · have hf : SUCCEEDED (d.GetDeviceState s size ptr).status = false := by simpa using h
    by_cases h2 : (d.GetDeviceState s size ptr).status ≠ DIERR_INPUTLOST ∧
        (d.GetDeviceState s size ptr).status ≠ DIERR_NOTACQUIRED
    · exact Or.inr (Or.inl ⟨hf, h2, by simp [stateLoop, hf, h2]⟩)
    · have ht : (d.GetDeviceState s size ptr).status = DIERR_INPUTLOST ∨
          (d.GetDeviceState s size ptr).status = DIERR_NOTACQUIRED := by
        by_contra hc
        exact h2 ⟨fun e => hc (Or.inl e), fun e => hc (Or.inr e)⟩
      cases h3 : (acquireLoop d AQUIRE_RETRIES (d.GetDeviceState s size ptr).dev :
          AcquireRun σ β).raised with
      | some code =>
        refine Or.inr (Or.inr (Or.inl ⟨hf, ht, code, rfl, ?_⟩))
        simp only [stateLoop, hf, h2, h3]
        simp
      | none =>
        refine Or.inr (Or.inr (Or.inr ⟨hf, ht, rfl, ?_⟩))
        simp only [stateLoop, hf, h2, h3]
        simp

/-- A state read is never among the calls of the inner loop. -/
theorem read_not_mem_acquireLoop (d : IDirectInputDevice8W σ β) (n : Nat) (s : σ)
    (hr : HRESULT) (data : β) : DriverCall.read hr data ∉ (acquireLoop d n s).calls := by
  intro h
  have := acquireLoop_calls_acquire d n s _ h
  simp [DriverCall.isAcquire] at this

/-- With a driver whose failed reads leave the buffer alone, the outer loop
changes the buffer only when it returns `true`. -/
theorem stateLoop_buf_unchanged (d : IDirectInputDevice8W σ β) (size : Nat)
    (hfail : ∀ (s : σ) (n : Nat) (b : β),
      SUCCEEDED (d.GetDeviceState s n b).status = false → (d.GetDeviceState s n b).buf = b) :
    ∀ (n : Nat) (s : σ) (ptr : β),
      (stateLoop d size n s ptr).outcome ≠ Outcome.returned true →
      (stateLoop d size n s ptr).buf = ptr := by
  intro n
  induction n with
  | zero => intro s ptr _; simp [stateLoop]
  | succ n ih =>
    intro s ptr h
    rcases stateLoop_succ_cases d size n s ptr with
      ⟨h1, he⟩ | ⟨h1, h2, he⟩ | ⟨h1, h2, code, h3, he⟩ | ⟨h1, h2, h3, he⟩
    · rw [he] at h; simp at h
    · rw [he]; exact hfail s size ptr h1
    · rw [he]; exact hfail s size ptr h1
    · rw [he] at h ⊢
      exact (ih _ _ h).trans (hfail s size ptr h1)

/-- In the outer loop a read whose status is a failure other than
`DIERR_INPUTLOST` and `DIERR_NOTACQUIRED` is raised and is the last call. -/
theorem stateLoop_read_fatal (d : IDirectInputDevice8W σ β) (size : Nat) :
    ∀ (n : Nat) (s : σ) (ptr : β) (pre post : List (DriverCall β)) (hr : HRESULT) (data : β),
      (stateLoop d size n s ptr).calls = pre ++ DriverCall.read hr data :: post →
      SUCCEEDED hr = false → hr ≠ DIERR_INPUTLOST → hr ≠ DIERR_NOTACQUIRED →
      (stateLoop d size n s ptr).outcome = Outcome.raised hr ∧ post = [] := by
  intro n
  induction n with
  | zero => intro s ptr pre post hr data h; simp [stateLoop] at h
  | succ n ih =>
    intro s ptr pre post hr data h hs hl hn
    rcases stateLoop_succ_cases d size n s ptr with
      ⟨h1, he⟩ | ⟨h1, h2, he⟩ | ⟨h1, h2, code, h3, he⟩ | ⟨h1, h2, h3, he⟩
    · rw [he] at h
      cases pre with
      | nil =>
        simp only [List.nil_append, List.cons.injEq, DriverCall.read.injEq] at h
        rw [← h.1.1, h1] at hs
        simp at hs
      | cons x pre => simp at h
    · rw [he] at h ⊢
      cases pre with
      | nil =>
        simp only [List.nil_append, List.cons.injEq, DriverCall.read.injEq] at h
        simp [h.1.1, h.2]
      | cons x pre => simp at h
    · rw [he] at h
      cases pre with
      | nil =>
        simp only [List.nil_append, List.cons.injEq, DriverCall.read.injEq] at h
        rw [h.1.1] at h2
        rcases h2 with h2 | h2
        · exact absurd h2 hl
        · exact absurd h2 hn
      | cons x pre =>
        simp only [List.cons_append, List.cons.injEq] at h
        exact absurd (by rw [h.2]; simp) (read_not_mem_acquireLoop d _ _ hr data)
    · rw [he] at h ⊢
      cases pre with
      | nil =>
        simp only [List.nil_append, List.cons.injEq, DriverCall.read.injEq] at h
        rw [h.1.1] at h2
        rcases h2 with h2 | h2
        · exact absurd h2 hl
        · exact absurd h2 hn
      | cons x pre =>
        simp only [List.cons_append, List.cons.injEq] at h
        rcases append_eq_split _ _ h.2 with ⟨m, hm, _⟩ | ⟨m, _, hm⟩
        · exact absurd (by rw [hm]; simp) (read_not_mem_acquireLoop d _ _ hr data)
        · exact ih _ _ m post hr data hm hs hl hn

/-- In the outer loop an acquire whose status is a failure other than
`DIERR_INPUTLOST` and `E_ACCESSDENIED` is raised and is the last call. -/
theorem stateLoop_acquire_fatal (d : IDirectInputDevice8W σ β) (size : Nat) :
    ∀ (n : Nat) (s : σ) (ptr : β) (pre post : List (DriverCall β)) (hr : HRESULT),
      (stateLoop d size n s ptr).calls = pre ++ DriverCall.acquire hr :: post →
      SUCCEEDED hr = false → hr ≠ DIERR_INPUTLOST → hr ≠ E_ACCESSDENIED →
      (stateLoop d size n s ptr).outcome = Outcome.raised hr ∧ post = [] := by
  intro n
  induction n with
  | zero => intro s ptr pre post hr h; simp [stateLoop] at h
  | succ n ih =>
    intro s ptr pre post hr h hs hl ha
    rcases stateLoop_succ_cases d size n s ptr with
      ⟨h1, he⟩ | ⟨h1, h2, he⟩ | ⟨h1, h2, code, h3, he⟩ | ⟨h1, h2, h3, he⟩
    · rw [he] at h
      cases pre with
      | nil => simp at h
      | cons x pre => simp at h
    · rw [he] at h
      cases pre with
      | nil => simp at h
      | cons x pre => simp at h
    · rw [he] at h ⊢
      cases pre with
      | nil => simp at h
      | cons x pre =>
        simp only [List.cons_append, List.cons.injEq] at h
        obtain ⟨hc, hp⟩ := acquireLoop_fatal d _ _ pre post hr h.2 hs hl ha
        rw [h3] at hc
        simp only [Option.some.injEq] at hc
        simp [hc, hp]
    · rw [he] at h ⊢
      cases pre with
      | nil => simp at h
      | cons x pre =>
        simp only [List.cons_append, List.cons.injEq] at h
        rcases append_eq_split _ _ h.2 with ⟨m, hm, _⟩ | ⟨m, _, hm⟩
        · have hc := (acquireLoop_fatal d _ _ pre m hr hm hs hl ha).1
          rw [h3] at hc
          simp at hc
        · exact ih _ _ m post hr hm hs hl ha

/-- When the outer loop raises, the code raised is the status of the last
driver call: a read that failed with a status other than `DIERR_INPUTLOST`
and `DIERR_NOTACQUIRED`, or an acquire that failed with a status other than
`DIERR_INPUTLOST` and `E_ACCESSDENIED`. -/
theorem stateLoop_raised (d : IDirectInputDevice8W σ β) (size : Nat) :
    ∀ (n : Nat) (s : σ) (ptr : β) (code : HRESULT),
      (stateLoop d size n s ptr).outcome = Outcome.raised code →
      SUCCEEDED code = false ∧
      ((∃ pre data, (stateLoop d size n s ptr).calls = pre ++ [DriverCall.read code data] ∧
          code ≠ DIERR_INPUTLOST ∧ code ≠ DIERR_NOTACQUIRED) ∨
        (∃ pre, (stateLoop d size n s ptr).calls = pre ++ [DriverCall.acquire code] ∧
          code ≠ DIERR_INPUTLOST ∧ code ≠ E_ACCESSDENIED)) := by
  intro n
  induction n with
  | zero => intro s ptr code h; simp [stateLoop] at h
  | succ n ih =>
    intro s ptr code h
    rcases stateLoop_succ_cases d size n s ptr with
      ⟨h1, he⟩ | ⟨h1, h2, he⟩ | ⟨h1, h2, c, h3, he⟩ | ⟨h1, h2, h3, he⟩
    · rw [he] at h; simp at h
    · rw [he] at h ⊢
      simp only [Outcome.raised.injEq] at h
      subst h
      exact ⟨h1, Or.inl ⟨[], _, rfl, h2.1, h2.2⟩⟩
    · rw [he] at h ⊢
      simp only [Outcome.raised.injEq] at h
      subst h
      obtain ⟨⟨pre, hp⟩, hs, hl, ha⟩ := acquireLoop_raised d _ _ c h3
      refine ⟨hs, Or.inr ⟨DriverCall.read (d.GetDeviceState s size ptr).status
        (d.GetDeviceState s size ptr).buf :: pre, ?_, hl, ha⟩⟩
      simp only [hp]
      simp
    · rw [he] at h ⊢
      obtain ⟨hs, hcase⟩ := ih _ _ code h
      refine ⟨hs, ?_⟩
      rcases hcase with ⟨pre, data, hp, hl, hn⟩ | ⟨pre, hp, hl, ha⟩
      · refine Or.inl ⟨DriverCall.read (d.GetDeviceState s size ptr).status
          (d.GetDeviceState s size ptr).buf ::
            ((acquireLoop d AQUIRE_RETRIES (d.GetDeviceState s size ptr).dev).calls ++ pre),
          data, ?_, hl, hn⟩
        simp only [hp]
        simp
      · refine Or.inr ⟨DriverCall.read (d.GetDeviceState s size ptr).status
          (d.GetDeviceState s size ptr).buf ::
            ((acquireLoop d AQUIRE_RETRIES (d.GetDeviceState s size ptr).dev).calls ++ pre),
          ?_, hl, ha⟩
        simp only [hp]
        simp

theorem acquireCount_acquireLoop (d : IDirectInputDevice8W σ β) (n : Nat) (s : σ) :
    acquireCount (acquireLoop d n s : AcquireRun σ β).calls ≤ n :=
  (List.countP_le_length _).trans (acquireLoop_calls_length d n s)

theorem readCount_acquireLoop (d : IDirectInputDevice8W σ β) (n : Nat) (s : σ) :
    readCount (acquireLoop d n s : AcquireRun σ β).calls = 0 := by
  unfold readCount
  rw [List.countP_eq_zero]
  intro c hc
  have := acquireLoop_calls_acquire d n s c hc
  cases c <;> simp_all [DriverCall.isRead, DriverCall.isAcquire]

/-- The outer loop with `n` iterations makes at most `n` reads and at most
`n * AQUIRE_RETRIES` acquire calls. -/
theorem stateLoop_counts (d : IDirectInputDevice8W σ β) (size : Nat) :
    ∀ (n : Nat) (s : σ) (ptr : β),
      readCount (stateLoop d size n s ptr).calls ≤ n ∧
      acquireCount (stateLoop d size n s ptr).calls ≤ n * AQUIRE_RETRIES := by
  intro n
  induction n with
  | zero => intro s ptr; simp [stateLoop, readCount, acquireCount]
  | succ n ih =>
    intro s ptr
    have hA := acquireCount_acquireLoop d AQUIRE_RETRIES (d.GetDeviceState s size ptr).dev
    have hR := readCount_acquireLoop d AQUIRE_RETRIES (d.GetDeviceState s size ptr).dev
    rcases stateLoop_succ_cases d size n s ptr with
      ⟨h1, he⟩ | ⟨h1, h2, he⟩ | ⟨h1, h2, c, h3, he⟩ | ⟨h1, h2, h3, he⟩
    · rw [he]; simp [readCount, acquireCount, DriverCall.isRead, DriverCall.isAcquire]
    · rw [he]; simp [readCount, acquireCount, DriverCall.isRead, DriverCall.isAcquire]
    · rw [he]
      unfold readCount acquireCount at *
      simp only [List.countP_cons, DriverCall.isRead, DriverCall.isAcquire]
      constructor
      · simp only [if_true]; omega
      · simp only [Bool.false_eq_true, if_false]; rw [Nat.succ_mul]; omega
    · rw [he]
      obtain ⟨ihr, iha⟩ := ih (acquireLoop d AQUIRE_RETRIES (d.GetDeviceState s size ptr).dev :
        AcquireRun σ β).dev (d.GetDeviceState s size ptr).buf
      unfold readCount acquireCount at *
      simp only [List.countP_cons, List.countP_append, DriverCall.isRead, DriverCall.isAcquire]
      constructor
      · simp only [if_true]; omega
      · simp only [Bool.false_eq_true, if_false]; rw [Nat.succ_mul]; omega

/-- Every call is a read or an acquire, so the counts add up to the length. -/
theorem readCount_add_acquireCount (calls : List (DriverCall β)) :
    readCount calls + acquireCount calls = calls.length := by
  induction calls with
  | nil => rfl
  | cons c cs ih =>
    unfold readCount acquireCount at *
    cases c <;> simp [List.countP_cons, DriverCall.isRead, DriverCall.isAcquire] <;> omega

/-- A failed read of the scripted driver leaves the buffer as it was. -/
theorem scripted_failed_read (β : Type) (s : List (HRESULT × β)) (n : Nat) (b : β)
    (h : SUCCEEDED ((scripted β).GetDeviceState s n b).status = false) :
    ((scripted β).GetDeviceState s n b).buf = b := by
  cases s with
  | nil => rfl
  | cons x rest =>
    obtain ⟨hr, data⟩ := x
    simp only [scripted] at h ⊢
    simp [h]

end Lemmas

/-! ## The polling contract -/

section Contract

variable {σ β : Type}

/-- C1: `GetState` on a device whose handle is absent returns `false` (so it
does not raise), makes no driver call at all (no read, no acquire) and leaves
the destination buffer as it was, for every buffer and size. -/
theorem GetState_absent_handle (d : IDirectInputDevice8W σ β) (size : Nat) (ptr : β) :
    (GetState d none size ptr).outcome = Outcome.returned false ∧
      (GetState d none size ptr).calls = [] ∧
      readCount (GetState d none size ptr).calls = 0 ∧
      acquireCount (GetState d none size ptr).calls = 0 ∧
      (GetState d none size ptr).buf = ptr :=
  ⟨rfl, rfl, rfl, rfl, rfl⟩

/-- C3: with a driver whose failed reads write nothing, whenever `GetState`
returns `false` the destination buffer is what it was before the call, with
the handle absent or present. -/
theorem GetState_false_buffer_unchanged (d : IDirectInputDevice8W σ β)
    (hfail : ∀ (s : σ) (n : Nat) (b : β),
      SUCCEEDED (d.GetDeviceState s n b).status = false → (d.GetDeviceState s n b).buf = b)
    (m_device : Option σ) (size : Nat) (ptr : β)
    (h : (GetState d m_device size ptr).outcome = Outcome.returned false) :
    (GetState d m_device size ptr).buf = ptr := by
  cases m_device with
  | none => rfl
  | some s =>
    refine stateLoop_buf_unchanged d size hfail GET_STATE_RETRIES s ptr ?_
    intro ht
    have h' : (stateLoop d size GET_STATE_RETRIES s ptr).outcome = Outcome.returned false := h
    rw [ht] at h'
    simp at h'

/-- Witness of C3: both reads fail with `DIERR_NOTACQUIRED` and all four
acquires with `DIERR_INPUTLOST`; the buffer still holds `1`. -/
theorem GetState_false_buffer_unchanged_witness :
    (GetState (scripted Nat)
        (some [(DIERR_NOTACQUIRED, 5), (DIERR_INPUTLOST, 0), (DIERR_INPUTLOST, 0),
          (DIERR_NOTACQUIRED, 6), (DIERR_INPUTLOST, 0), (DIERR_INPUTLOST, 0)]) 4 1).outcome
        = Outcome.returned false ∧
      (GetState (scripted Nat)
        (some [(DIERR_NOTACQUIRED, 5), (DIERR_INPUTLOST, 0), (DIERR_INPUTLOST, 0),
          (DIERR_NOTACQUIRED, 6), (DIERR_INPUTLOST, 0), (DIERR_INPUTLOST, 0)]) 4 1).buf = 1 :=
  ⟨by decide,
    GetState_false_buffer_unchanged (scripted Nat) (scripted_failed_read Nat)
      (some [(DIERR_NOTACQUIRED, 5), (DIERR_INPUTLOST, 0), (DIERR_INPUTLOST, 0),
        (DIERR_NOTACQUIRED, 6), (DIERR_INPUTLOST, 0), (DIERR_INPUTLOST, 0)]) 4 1 (by decide)⟩

/-- C6, as stated, fails: a `DIERR_NOTACQUIRED` returned by an acquire call is
raised.  The read fails with `DIERR_NOTACQUIRED`, the acquire after it fails
with `DIERR_NOTACQUIRED`, and `GetState` raises that code. -/
theorem GetState_raises_notacquired_from_acquire :
    (GetState (scripted Nat) (some [(DIERR_NOTACQUIRED, 5), (DIERR_NOTACQUIRED, 0)]) 4 1).outcome
        = Outcome.raised DIERR_NOTACQUIRED ∧
      (GetState (scripted Nat) (some [(DIERR_NOTACQUIRED, 5), (DIERR_NOTACQUIRED, 0)]) 4 1).calls
        = [DriverCall.read DIERR_NOTACQUIRED 1, DriverCall.acquire DIERR_NOTACQUIRED] :=
  ⟨by decide, by decide⟩

/-- C6, amended: a code raised by `GetState` is the failure status of the last
driver call of the run; it is never `DIERR_INPUTLOST`; it is not
`DIERR_NOTACQUIRED` when that call is a read, and not `E_ACCESSDENIED` when
that call is an acquire. -/
theorem GetState_raised_code (d : IDirectInputDevice8W σ β) (m_device : Option σ) (size : Nat)
    (ptr : β) (code : HRESULT)
    (h : (GetState d m_device size ptr).outcome = Outcome.raised code) :
    SUCCEEDED code = false ∧ code ≠ DIERR_INPUTLOST ∧
      ((∃ pre data, (GetState d m_device size ptr).calls = pre ++ [DriverCall.read code data] ∧
          code ≠ DIERR_NOTACQUIRED) ∨
        (∃ pre, (GetState d m_device size ptr).calls = pre ++ [DriverCall.acquire code] ∧
          code ≠ E_ACCESSDENIED)) := by
  cases m_device with
  | none => simp [GetState] at h
  | some s =>
    obtain ⟨hs, hc⟩ := stateLoop_raised d size GET_STATE_RETRIES s ptr code h
    rcases hc with ⟨pre, data, hp, hl, hn⟩ | ⟨pre, hp, hl, ha⟩
    · exact ⟨hs, hl, Or.inl ⟨pre, data, hp, hn⟩⟩
    · exact ⟨hs, hl, Or.inr ⟨pre, hp, ha⟩⟩

/-- Witness of C6 amended: the read fails with `DIERR_INPUTLOST`, the acquire
with `E_FAIL`, which is raised. -/
theorem GetState_raised_code_witness :
    (GetState (scripted Nat) (some [(DIERR_INPUTLOST, 5), (E_FAIL, 0)]) 4 1).outcome
        = Outcome.raised E_FAIL ∧
      SUCCEEDED E_FAIL = false ∧ E_FAIL ≠ DIERR_INPUTLOST :=
  ⟨by decide,
    (GetState_raised_code (scripted Nat) (some [(DIERR_INPUTLOST, 5), (E_FAIL, 0)]) 4 1 E_FAIL
      (by decide)).1,
    (GetState_raised_code (scripted Nat) (some [(DIERR_INPUTLOST, 5), (E_FAIL, 0)]) 4 1 E_FAIL
      (by decide)).2.1⟩

/-- C7: if the first read fails with `DIERR_NOTACQUIRED` or `DIERR_INPUTLOST`,
the first acquire succeeds and the second read succeeds, `GetState` returns
`true` with the second read's data in the buffer, after exactly 2 reads and
exactly 1 acquire. -/
theorem GetState_recovery (d : IDirectInputDevice8W σ β) (s : σ) (size : Nat) (ptr : β)
    (h1 : (d.GetDeviceState s size ptr).status = DIERR_NOTACQUIRED ∨
      (d.GetDeviceState s size ptr).status = DIERR_INPUTLOST)
    (h2 : SUCCEEDED (d.Acquire (d.GetDeviceState s size ptr).dev).status = true)
    (h3 : SUCCEEDED (d.GetDeviceState (d.Acquire (d.GetDeviceState s size ptr).dev).dev size
      (d.GetDeviceState s size ptr).buf).status = true) :
    (GetState d (some s) size ptr).outcome = Outcome.returned true ∧
      (GetState d (some s) size ptr).buf =
        (d.GetDeviceState (d.Acquire (d.GetDeviceState s size ptr).dev).dev size
          (d.GetDeviceState s size ptr).buf).buf ∧
      (GetState d (some s) size ptr).calls =
        [DriverCall.read (d.GetDeviceState s size ptr).status (d.GetDeviceState s size ptr).buf,
          DriverCall.acquire (d.Acquire (d.GetDeviceState s size ptr).dev).status,
          DriverCall.read
            (d.GetDeviceState (d.Acquire (d.GetDeviceState s size ptr).dev).dev size
              (d.GetDeviceState s size ptr).buf).status
            (d.GetDeviceState (d.Acquire (d.GetDeviceState s size ptr).dev).dev size
              (d.GetDeviceState s size ptr).buf).buf] ∧
      readCount (GetState d (some s) size ptr).calls = 2 ∧
      acquireCount (GetState d (some s) size ptr).calls = 1 := by
  have hf : SUCCEEDED (d.GetDeviceState s size ptr).status = false := by
    rcases h1 with e | e <;> rw [e] <;> decide
  have ht : ¬((d.GetDeviceState s size ptr).status ≠ DIERR_INPUTLOST ∧
      (d.GetDeviceState s size ptr).status ≠ DIERR_NOTACQUIRED) := by
    rcases h1 with e | e
    · exact fun c => c.2 e
    · exact fun c => c.1 e
  simp [GetState, GET_STATE_RETRIES, AQUIRE_RETRIES, stateLoop, acquireLoop, hf, ht, h2, h3,
    readCount, acquireCount, DriverCall.isRead, DriverCall.isAcquire]

/-- Witness of C7: read `DIERR_NOTACQUIRED`, acquire `0`, read `0` with data
`7`. -/
theorem GetState_recovery_witness :
    (GetState (scripted Nat) (some [(DIERR_NOTACQUIRED, 5), (0, 0), (0, 7)]) 4 1).outcome
        = Outcome.returned true ∧
      (GetState (scripted Nat) (some [(DIERR_NOTACQUIRED, 5), (0, 0), (0, 7)]) 4 1).buf = 7 ∧
      (GetState (scripted Nat) (some [(DIERR_NOTACQUIRED, 5), (0, 0), (0, 7)]) 4 1).calls =
        [DriverCall.read DIERR_NOTACQUIRED 1, DriverCall.acquire 0, DriverCall.read 0 7] ∧
      readCount (GetState (scripted Nat)
        (some [(DIERR_NOTACQUIRED, 5), (0, 0), (0, 7)]) 4 1).calls = 2 ∧
      acquireCount (GetState (scripted Nat)
        (some [(DIERR_NOTACQUIRED, 5), (0, 0), (0, 7)]) 4 1).calls = 1 :=
  GetState_recovery (scripted Nat) [(DIERR_NOTACQUIRED, 5), (0, 0), (0, 7)] 4 1
    (Or.inl (by decide)) (by decide) (by decide)

/-- C9, as stated, fails: with both reads failing with `DIERR_NOTACQUIRED` and
all acquires with `DIERR_INPUTLOST`, one call of `GetState` makes 6 driver
round-trips (2 reads and 4 acquires), more than 4. -/
theorem GetState_six_round_trips :
    (GetState (scripted Nat)
        (some [(DIERR_NOTACQUIRED, 5), (DIERR_INPUTLOST, 0), (DIERR_INPUTLOST, 0),
          (DIERR_NOTACQUIRED, 6), (DIERR_INPUTLOST, 0), (DIERR_INPUTLOST, 0)]) 4 1).calls.length
        = 6 ∧
      ¬ (GetState (scripted Nat)
        (some [(DIERR_NOTACQUIRED, 5), (DIERR_INPUTLOST, 0), (DIERR_INPUTLOST, 0),
          (DIERR_NOTACQUIRED, 6), (DIERR_INPUTLOST, 0), (DIERR_INPUTLOST, 0)]) 4 1).calls.length
        ≤ 2 * 2 :=
  ⟨by decide, by decide⟩

/-- C9, amended: one call of `GetState` makes at most 2 + 2 × 2 = 6 driver
round-trips in total, at most 2 of them state reads and at most 2 × 2 = 4 of
them acquire calls, whatever the driver answers. -/
theorem GetState_round_trips_le (d : IDirectInputDevice8W σ β) (m_device : Option σ)
    (size : Nat) (ptr : β) :
    (GetState d m_device size ptr).calls.length ≤ 2 + 2 * 2 ∧
      readCount (GetState d m_device size ptr).calls ≤ 2 ∧
      acquireCount (GetState d m_device size ptr).calls ≤ 2 * 2 := by
  cases m_device with
  | none => simp [GetState, readCount, acquireCount]
  | some s =>
    obtain ⟨hr, ha⟩ := stateLoop_counts d size GET_STATE_RETRIES s ptr
    have hsum := readCount_add_acquireCount (stateLoop d size GET_STATE_RETRIES s ptr).calls
    have hr2 : readCount (stateLoop d size GET_STATE_RETRIES s ptr).calls ≤ 2 := hr
    have ha2 : acquireCount (stateLoop d size GET_STATE_RETRIES s ptr).calls ≤ 2 * 2 := ha
    refine ⟨?_, hr2, ha2⟩
    show (stateLoop d size GET_STATE_RETRIES s ptr).calls.length ≤ 2 + 2 * 2
    omega

end Contract

/-! ## Key queries -/

/-- C10: for every `KeyboardState`, whatever its 256 bytes, and every key code
`c`, `isKeyDown(c)` is the negation of `isKeyUp(c)`. -/
theorem isKeyDown_eq_not_isKeyUp (k : KeyboardState) (c : BYTE) :
    k.isKeyDown c = !k.isKeyUp c := by
  simp [KeyboardState.isKeyDown, KeyboardState.isKeyUp]

/-! ## Snapshot types -/

/-- The mask `0x80` keeps of a byte exactly its high bit. -/
theorem byte_and_mask (b : BYTE) : b.val &&& 0x80 = if 128 ≤ b.val then 128 else 0 := by
  have h : b.val &&& 0x80 = (decide (b.val / 128 % 2 = 1)).toNat * 128 := by
    have h7 := Nat.and_two_pow b.val 7
    rw [Nat.testBit_to_div_mod] at h7
    exact h7
  have hb := b.isLt
  rw [h]
  by_cases c : 128 ≤ b.val
  · have h1 : b.val / 128 % 2 = 1 := by omega
    rw [if_pos c, decide_eq_true h1]
    rfl
  · have h0 : ¬ (b.val / 128 % 2 = 1) := by omega
    rw [if_neg c, decide_eq_false h0]
    rfl

/-- `isKeyDown` is the test of the byte against 128. -/
theorem isKeyDown_eq_decide_le (k : KeyboardState) (c : BYTE) :
    k.isKeyDown c = decide (128 ≤ (k.byteAt c).val) := by
  unfold KeyboardState.isKeyDown KEY_MASK
  rw [byte_and_mask]
  by_cases h : 128 ≤ (k.byteAt c).val <;> simp [h]

/-- The copy constructor of `KeyboardState` gives the source sample. -/
theorem KeyboardState_copy_eq (raw b : KeyboardState) : KeyboardState.copy raw b = b := by
  cases b with
  | mk keys =>
    unfold KeyboardState.copy memcpy
    congr 1
    funext i
    have hi : i.val < STATE_TAB_LENGTH * sizeof_char := by simp [sizeof_char]
    simp [hi]

/-- Assignment of `KeyboardState` gives the source sample. -/
theorem KeyboardState_assign_eq (self b : KeyboardState) : KeyboardState.assign self b = b :=
  KeyboardState_copy_eq self b

/-- C11: a default-constructed `KeyboardState` reports `isKeyDown(c) == false`
for every key code `c`, whatever the storage held before; a default-constructed
`MouseState` reports a position change of (0, 0), a wheel change of 0 and
`isButtonDown(b) == false` for every button `b` in 0..3. -/
theorem default_snapshots_report_nothing (raw : KeyboardState) :
    (∀ c : BYTE, (KeyboardState.init raw).isKeyDown c = false) ∧
      MouseState.init.getMousePositionChange = ⟨0, 0⟩ ∧
      MouseState.init.getWheelPositionChange = 0 ∧
      ∀ b : BYTE, b.val < 4 → MouseState.init.isButtonDown b = some false := by
  refine ⟨fun c => ?_, rfl, rfl, fun b hb => ?_⟩
  · rw [isKeyDown_eq_decide_le]
    have hc : c.val < STATE_TAB_LENGTH * sizeof_char := c.isLt
    simp [KeyboardState.byteAt, KeyboardState.init, ZeroMemory, hc]
  · simp [MouseState.isButtonDown, MouseState.init, hb]

/-- Witness of C11: storage full of `0xFF` before the constructor runs, key
code 200 and button 3. -/
theorem default_snapshots_report_nothing_witness :
    (KeyboardState.init ⟨fun _ => 255⟩).isKeyDown 200 = false ∧
      MouseState.init.isButtonDown 3 = some false :=
  ⟨(default_snapshots_report_nothing ⟨fun _ => 255⟩).1 200,
    (default_snapshots_report_nothing ⟨fun _ => 255⟩).2.2.2 3 (by decide)⟩

/-- C12: with the assertions active, `isButtonDown`, `isButtonUp` and
`operator[]` of `MouseState` fail their bounds assertion exactly when the
button index is at least 4; for every index in 0..3 they return a value,
whatever the sample holds. -/
theorem MouseState_button_bounds (m : MouseState) (button : BYTE) :
    (m.isButtonDown button = none ↔ 4 ≤ button.val) ∧
      (m.isButtonUp button = none ↔ 4 ≤ button.val) ∧
      (m.subscript button = none ↔ 4 ≤ button.val) ∧
      (button.val < 4 →
        ∃ v : Bool, m.isButtonDown button = some v ∧ m.isButtonUp button = some (!v) ∧
          m.subscript button = some v) := by
  by_cases h : button.val < 4
  · have h4 : ¬ 4 ≤ button.val := by omega
    refine ⟨?_, ?_, ?_, fun _ => ?_⟩
    · simp [MouseState.isButtonDown, h, h4]
    · simp [MouseState.isButtonUp, h, h4]
    · simp [MouseState.subscript, h, h4]
    · exact ⟨decide (0 ≠ (m.m_state.rgbButtons ⟨button.val, h⟩).val &&& BUTTON_MASK), by
        simp [MouseState.isButtonDown, MouseState.isButtonUp, MouseState.subscript, h]⟩
  · have h4 : 4 ≤ button.val := by omega
    refine ⟨?_, ?_, ?_, fun hlt => absurd hlt h⟩
    · simp [MouseState.isButtonDown, h, h4]
    · simp [MouseState.isButtonUp, h, h4]
    · simp [MouseState.subscript, h, h4]

/-- Witness of C12: on the zeroed sample button 3 gives a value, and button 4
fails the assertion. -/
theorem MouseState_button_bounds_witness :
    (∃ v : Bool, MouseState.init.isButtonDown 3 = some v ∧
        MouseState.init.isButtonUp 3 = some (!v) ∧ MouseState.init.subscript 3 = some v) ∧
      MouseState.init.isButtonDown 4 = none :=
  ⟨(MouseState_button_bounds MouseState.init 3).2.2.2 (by decide),
    (MouseState_button_bounds MouseState.init 4).1.mpr (by decide)⟩

/-- C13: copy construction and assignment of `KeyboardState` and `MouseState`
duplicate the whole sample: the copy equals the source, so every query on it
answers as on the source; and once the source has changed to a different
sample, the copy, which still is the old sample, differs from it. -/
theorem snapshot_copy_value_semantics (rawK bK : KeyboardState) (selfM bM : MouseState) :
    (KeyboardState.copy rawK bK = bK ∧ KeyboardState.assign rawK bK = bK ∧
        MouseState.copy bM = bM ∧ MouseState.assign selfM bM = bM) ∧
      (∀ c : BYTE, (KeyboardState.assign rawK bK).isKeyDown c = bK.isKeyDown c ∧
        (KeyboardState.assign rawK bK).isKeyUp c = bK.isKeyUp c ∧
        (KeyboardState.copy rawK bK).isKeyDown c = bK.isKeyDown c ∧
        (KeyboardState.copy rawK bK).isKeyUp c = bK.isKeyUp c) ∧
      (∀ b : BYTE, (MouseState.assign selfM bM).isButtonDown b = bM.isButtonDown b ∧
        (MouseState.assign selfM bM).isButtonUp b = bM.isButtonUp b ∧
        (MouseState.copy bM).isButtonDown b = bM.isButtonDown b ∧
        (MouseState.copy bM).isButtonUp b = bM.isButtonUp b) ∧
      ((MouseState.assign selfM bM).getMousePositionChange = bM.getMousePositionChange ∧
        (MouseState.assign selfM bM).getWheelPositionChange = bM.getWheelPositionChange ∧
        (MouseState.copy bM).getMousePositionChange = bM.getMousePositionChange ∧
        (MouseState.copy bM).getWheelPositionChange = bM.getWheelPositionChange) ∧
      (∀ bK' : KeyboardState, bK' ≠ bK →
        KeyboardState.copy rawK bK ≠ bK' ∧ KeyboardState.assign rawK bK ≠ bK') ∧
      (∀ bM' : MouseState, bM' ≠ bM →
        MouseState.copy bM ≠ bM' ∧ MouseState.assign selfM bM ≠ bM') := by
  have hkc := KeyboardState_copy_eq rawK bK
  have hka := KeyboardState_assign_eq rawK bK
  have hmc : MouseState.copy bM = bM := rfl
  have hma : MouseState.assign selfM bM = bM := rfl
  refine ⟨⟨hkc, hka, hmc, hma⟩, fun c => ?_, fun b => ?_, ?_, fun bK' h => ?_, fun bM' h => ?_⟩
  · rw [hkc, hka]
    exact ⟨rfl, rfl, rfl, rfl⟩
  · rw [hmc, hma]
    exact ⟨rfl, rfl, rfl, rfl⟩
  · rw [hmc, hma]
    exact ⟨rfl, rfl, rfl, rfl⟩
  · rw [hkc, hka]
    exact ⟨fun e => h e.symm, fun e => h e.symm⟩
  · rw [hmc, hma]
    exact ⟨fun e => h e.symm, fun e => h e.symm⟩

/-- Witness of C13: a sample with key 7 down is assigned over a zeroed one;
the source then changes to the sample with no key down, and the copy still
reports key 7 down and differs from it. -/
theorem snapshot_copy_value_semantics_witness :
    (KeyboardState.assign ⟨fun _ => 0⟩ ⟨fun i => if i.val = 7 then 128 else 0⟩).isKeyDown 7
        = true ∧
      KeyboardState.assign ⟨fun _ => 0⟩ ⟨fun i => if i.val = 7 then 128 else 0⟩
        ≠ ⟨fun _ => 0⟩ ∧
      MouseState.assign MouseState.init ⟨⟨3, -2, 1, fun _ => 128⟩⟩ ≠ MouseState.init :=
  ⟨by decide,
    ((snapshot_copy_value_semantics ⟨fun _ => 0⟩ ⟨fun i => if i.val = 7 then 128 else 0⟩
      MouseState.init ⟨⟨3, -2, 1, fun _ => 128⟩⟩).2.2.2.2.1 ⟨fun _ => 0⟩
        (fun e => absurd
          (congrArg (fun k : KeyboardState => (k.m_keys ⟨7, by decide⟩).val) e) (by decide))).2,
    ((snapshot_copy_value_semantics ⟨fun _ => 0⟩ ⟨fun i => if i.val = 7 then 128 else 0⟩
      MouseState.init ⟨⟨3, -2, 1, fun _ => 128⟩⟩).2.2.2.2.2 MouseState.init
        (fun e => absurd (congrArg (fun m : MouseState => m.m_state.lX) e) (by decide))).2⟩

/-- C14: for every `MouseState`, `getMousePositionChange` is exactly the pair
(`lX`, `lY`) of the stored sample and `getWheelPositionChange` exactly its
`lZ`; two samples with the same `lX` and `lY` (the same `lZ`) give the same
answer, whatever their button bytes. -/
theorem MouseState_deltas_raw (m : MouseState) :
    m.getMousePositionChange.x = m.m_state.lX ∧
      m.getMousePositionChange.y = m.m_state.lY ∧
      m.getWheelPositionChange = m.m_state.lZ ∧
      (∀ m' : MouseState, m'.m_state.lX = m.m_state.lX → m'.m_state.lY = m.m_state.lY →
        m'.getMousePositionChange = m.getMousePositionChange) ∧
      (∀ m' : MouseState, m'.m_state.lZ = m.m_state.lZ →
        m'.getWheelPositionChange = m.getWheelPositionChange) := by
  refine ⟨rfl, rfl, rfl, fun m' hx hy => ?_, fun m' hz => hz⟩
  simp [MouseState.getMousePositionChange, hx, hy]

/-- Witness of C14: two samples with the motion (3, -2) and the wheel 120, one
with all buttons down and one with none. -/
theorem MouseState_deltas_raw_witness :
    (⟨⟨3, -2, 120, fun _ => 128⟩⟩ : MouseState).getMousePositionChange
        = (⟨⟨3, -2, 120, fun _ => 0⟩⟩ : MouseState).getMousePositionChange ∧
      (⟨⟨3, -2, 120, fun _ => 128⟩⟩ : MouseState).getMousePositionChange = ⟨3, -2⟩ ∧
      (⟨⟨3, -2, 120, fun _ => 128⟩⟩ : MouseState).getWheelPositionChange = 120 :=
  ⟨(MouseState_deltas_raw ⟨⟨3, -2, 120, fun _ => 0⟩⟩).2.2.2.1 ⟨⟨3, -2, 120, fun _ => 128⟩⟩ rfl rfl,
    by decide, by decide⟩

/-- C16: for every `KeyboardState` and key code `c`, `isKeyDown(c)` is true
exactly when the high bit (mask `0x80`) of the byte `m_keys[c]` is set, that
is when the byte is at least 128; a sample whose byte at `c` has the same high
bit gives the same answer, whatever the low 7 bits and the other bytes. -/
theorem isKeyDown_iff_high_bit (k : KeyboardState) (c : BYTE) :
    k.isKeyDown c = (k.m_keys ⟨c.val, c.isLt⟩).val.testBit 7 ∧
      k.isKeyDown c = decide (128 ≤ (k.m_keys ⟨c.val, c.isLt⟩).val) ∧
      ∀ k' : KeyboardState,
        (k'.m_keys ⟨c.val, c.isLt⟩).val / 128 = (k.m_keys ⟨c.val, c.isLt⟩).val / 128 →
        k'.isKeyDown c = k.isKeyDown c := by
  have hk := isKeyDown_eq_decide_le k c
  refine ⟨?_, hk, fun k' h => ?_⟩
  · rw [hk, Nat.testBit_to_div_mod]
    have hb := (k.byteAt c).isLt
    show decide (128 ≤ (k.byteAt c).val) = decide ((k.byteAt c).val / 2 ^ 7 % 2 = 1)
    rw [decide_eq_decide]
    constructor <;> intro h <;> omega
  · rw [hk, isKeyDown_eq_decide_le k' c]
    have hb := (k.byteAt c).isLt
    have hb' := (k'.byteAt c).isLt
    have h' : (k'.byteAt c).val / 128 = (k.byteAt c).val / 128 := h
    by_cases hc : 128 ≤ (k.byteAt c).val
    · have : 128 ≤ (k'.byteAt c).val := by omega
      simp [hc, this]
    · have : ¬ 128 ≤ (k'.byteAt c).val := by omega
      simp [hc, this]

/-- Witness of C16: the bytes `0x80` and `0xFF` at key 7 give the same answer,
with different bytes elsewhere. -/
theorem isKeyDown_iff_high_bit_witness :
    (⟨fun _ => 255⟩ : KeyboardState).isKeyDown 7
      = (⟨fun i => if i.val = 7 then 128 else 0⟩ : KeyboardState).isKeyDown 7 :=
  (isKeyDown_iff_high_bit ⟨fun i => if i.val = 7 then 128 else 0⟩ 7).2.2 ⟨fun _ => 255⟩
    (by decide)

/-- C17: every 8-bit key code is a position of the `STATE_TAB_LENGTH`-entry
array, so `isKeyDown`, `isKeyUp` and `operator[]` read an entry of the sample
for every key code, with no range check. -/
theorem keyCode_within_sample (k : KeyboardState) (c : BYTE) :
    c.val < STATE_TAB_LENGTH ∧
      ∃ i : Fin STATE_TAB_LENGTH, i.val = c.val ∧
        k.isKeyDown c = decide (0 ≠ (k.m_keys i).val &&& KEY_MASK) ∧
        k.isKeyUp c = decide (0 = (k.m_keys i).val &&& KEY_MASK) ∧
        k.subscript c = decide (0 ≠ (k.m_keys i).val &&& KEY_MASK) :=
  ⟨c.isLt, ⟨c.val, c.isLt⟩, rfl, rfl, rfl, rfl⟩

/-! ## More on the two loops -/

section MoreLemmas

variable {σ β : Type}

/-- Before an acquire of the inner loop there are only acquires, fewer than
the loop has iterations. -/
theorem acquireLoop_before_acquire (d : IDirectInputDevice8W σ β) (n : Nat) (s : σ)
    (pre post : List (DriverCall β)) (c : DriverCall β)
    (h : (acquireLoop d n s).calls = pre ++ c :: post) :
    pre.length < n ∧ ∀ x ∈ pre, x.isAcquire = true := by
  have hlen := acquireLoop_calls_length d n s
  have hacq := acquireLoop_calls_acquire d n s
  rw [h] at hlen hacq
  refine ⟨?_, fun x hx => hacq x (List.mem_append_left _ hx)⟩
  simp only [List.length_append, List.length_cons] at hlen
  omega

/-- Every acquire of the outer loop comes after a read that failed with
`DIERR_INPUTLOST` or `DIERR_NOTACQUIRED`, with only acquires in between, fewer
than `AQUIRE_RETRIES` of them. -/
theorem stateLoop_acquire_after_read (d : IDirectInputDevice8W σ β) (size : Nat) :
    ∀ (n : Nat) (s : σ) (ptr : β) (pre post : List (DriverCall β)) (hr : HRESULT),
      (stateLoop d size n s ptr).calls = pre ++ DriverCall.acquire hr :: post →
      ∃ (pre' : List (DriverCall β)) (hr' : HRESULT) (data : β) (acqs : List (DriverCall β)),
        pre = pre' ++ DriverCall.read hr' data :: acqs ∧
        (hr' = DIERR_INPUTLOST ∨ hr' = DIERR_NOTACQUIRED) ∧
        acqs.length < AQUIRE_RETRIES ∧ ∀ x ∈ acqs, x.isAcquire = true := by
  intro n
  induction n with
  | zero => intro s ptr pre post hr h; simp [stateLoop] at h
  | succ n ih =>
    intro s ptr pre post hr h
    rcases stateLoop_succ_cases d size n s ptr with
      ⟨h1, he⟩ | ⟨h1, h2, he⟩ | ⟨h1, h2, code, h3, he⟩ | ⟨h1, h2, h3, he⟩
    · rw [he] at h
      cases pre with
      | nil => simp at h
      | cons x pre => simp at h
    · rw [he] at h
      cases pre with
      | nil => simp at h
      | cons x pre => simp at h
    · rw [he] at h
      cases pre with
      | nil => simp at h
      | cons x pre =>
        simp only [List.cons_append, List.cons.injEq] at h
        obtain ⟨hl, ha⟩ := acquireLoop_before_acquire d _ _ pre post _ h.2
        exact ⟨[], (d.GetDeviceState s size ptr).status, (d.GetDeviceState s size ptr).buf, pre,
          by simp [h.1], h2, hl, ha⟩
    · rw [he] at h
      cases pre with
      | nil => simp at h
      | cons x pre =>
        simp only [List.cons_append, List.cons.injEq] at h
        rcases append_eq_split _ _ h.2 with ⟨m, hm, _⟩ | ⟨m, hpre, hm⟩
        · obtain ⟨hl, ha⟩ := acquireLoop_before_acquire d _ _ pre m _ hm
          exact ⟨[], (d.GetDeviceState s size ptr).status, (d.GetDeviceState s size ptr).buf, pre,
          by simp [h.1], h2, hl, ha⟩
        · obtain ⟨pre', hr', data, acqs, hp, ht, hl, ha⟩ := ih _ _ m post hr hm
          refine ⟨x :: ((acquireLoop d AQUIRE_RETRIES (d.GetDeviceState s size ptr).dev).calls
            ++ pre'), hr', data, acqs, ?_, ht, hl, ha⟩
          rw [hpre, hp]
          simp

/-- An inner loop with at least one iteration ends with an acquire. -/
theorem acquireLoop_last_acquire (d : IDirectInputDevice8W σ β) (n : Nat) (s : σ) :
    ∃ pre hr, (acquireLoop d (n + 1) s : AcquireRun σ β).calls = pre ++ [DriverCall.acquire hr] := by
  rcases List.eq_nil_or_concat (acquireLoop d (n + 1) s : AcquireRun σ β).calls with h | ⟨pre, c, h⟩
  · rw [acquireLoop_succ] at h
    split_ifs at h
  · rw [List.concat_eq_append] at h
    have hc := acquireLoop_calls_acquire d (n + 1) s c (by rw [h]; simp)
    cases c with
    | read hr data => simp [DriverCall.isAcquire] at hc
    | acquire hr => exact ⟨pre, hr, h⟩

/-- When the outer loop returns `false` it has used every iteration, and its
last call is an acquire. -/
theorem stateLoop_false_last (d : IDirectInputDevice8W σ β) (size : Nat) :
    ∀ (n : Nat) (s : σ) (ptr : β),
      (stateLoop d size n s ptr).outcome = Outcome.returned false →
      readCount (stateLoop d size n s ptr).calls = n ∧
        (0 < n → ∃ pre hr, (stateLoop d size n s ptr).calls = pre ++ [DriverCall.acquire hr]) := by
  intro n
  induction n with
  | zero => intro s ptr _; simp [stateLoop, readCount]
  | succ n ih =>
    intro s ptr h
    rcases stateLoop_succ_cases d size n s ptr with
      ⟨h1, he⟩ | ⟨h1, h2, he⟩ | ⟨h1, h2, code, h3, he⟩ | ⟨h1, h2, h3, he⟩
    · rw [he] at h; simp at h
    · rw [he] at h; simp at h
    · rw [he] at h; simp at h
    · rw [he] at h ⊢
      obtain ⟨hcnt, hlast⟩ := ih _ _ h
      have hR := readCount_acquireLoop d AQUIRE_RETRIES (d.GetDeviceState s size ptr).dev
      refine ⟨?_, fun _ => ?_⟩
      · unfold readCount at *
        simp only [List.countP_cons, List.countP_append, DriverCall.isRead, if_true]
        omega
      · cases n with
        | zero =>
          obtain ⟨pre, hr, hp⟩ := acquireLoop_last_acquire d 1 (d.GetDeviceState s size ptr).dev
          have hp' : (acquireLoop d AQUIRE_RETRIES (d.GetDeviceState s size ptr).dev :
              AcquireRun σ β).calls = pre ++ [DriverCall.acquire hr] := hp
          refine ⟨DriverCall.read (d.GetDeviceState s size ptr).status
            (d.GetDeviceState s size ptr).buf :: pre, hr, ?_⟩
          simp [stateLoop, hp']
        | succ n =>
          obtain ⟨pre, hr, hp⟩ := hlast (Nat.succ_pos n)
          refine ⟨DriverCall.read (d.GetDeviceState s size ptr).status
            (d.GetDeviceState s size ptr).buf ::
              ((acquireLoop d AQUIRE_RETRIES (d.GetDeviceState s size ptr).dev).calls ++ pre),
            hr, ?_⟩
          simp only [hp]
          simp

end MoreLemmas

/-! ## The retry loops of the polling contract -/

section Retries

variable {σ β : Type}

/-- C15: for every driver, `GetState` makes at most 2 state reads; every
acquire of the run comes after a read that failed with `DIERR_INPUTLOST` or
`DIERR_NOTACQUIRED`, with nothing but acquires in between and fewer than 2 of
them, so a failed read is followed by at most 2 acquire attempts and no three
acquires are made in a row. -/
theorem GetState_bounded_retries (d : IDirectInputDevice8W σ β) (m_device : Option σ)
    (size : Nat) (ptr : β) :
    readCount (GetState d m_device size ptr).calls ≤ 2 ∧
      (∀ (pre post : List (DriverCall β)) (hr : HRESULT),
        (GetState d m_device size ptr).calls = pre ++ DriverCall.acquire hr :: post →
        ∃ (pre' : List (DriverCall β)) (hr' : HRESULT) (data : β) (acqs : List (DriverCall β)),
          pre = pre' ++ DriverCall.read hr' data :: acqs ∧
          (hr' = DIERR_INPUTLOST ∨ hr' = DIERR_NOTACQUIRED) ∧
          acqs.length < 2 ∧ ∀ x ∈ acqs, x.isAcquire = true) ∧
      (∀ (pre post : List (DriverCall β)) (a1 a2 a3 : HRESULT),
        (GetState d m_device size ptr).calls ≠
          pre ++ DriverCall.acquire a1 :: DriverCall.acquire a2 :: DriverCall.acquire a3 :: post) := by
  cases m_device with
  | none =>
    refine ⟨by simp [GetState, readCount], fun pre post hr h => ?_, fun pre post a1 a2 a3 h => ?_⟩
    · simp [GetState] at h
    · simp [GetState] at h
  | some s =>
    have hsplit := stateLoop_acquire_after_read d size GET_STATE_RETRIES s ptr
    refine ⟨(stateLoop_counts d size GET_STATE_RETRIES s ptr).1, fun pre post hr h => ?_,
      fun pre post a1 a2 a3 h => ?_⟩
    · exact hsplit pre post hr h
    · have h' : (stateLoop d size GET_STATE_RETRIES s ptr).calls =
          (pre ++ [DriverCall.acquire a1, DriverCall.acquire a2]) ++
            DriverCall.acquire a3 :: post := by
        rw [show (GetState d (some s) size ptr).calls
          = (stateLoop d size GET_STATE_RETRIES s ptr).calls from rfl] at h
        rw [h]
        simp
      obtain ⟨pre', hr', data, acqs, hp, _, hl, _⟩ := hsplit _ post a3 h'
      have hl2 : acqs.length < 2 := hl
      match acqs, hl2 with
      | [], _ =>
        have e : (pre ++ [DriverCall.acquire a1]) ++ [DriverCall.acquire a2] =
            pre' ++ [DriverCall.read hr' data] := by
          rw [← hp]; simp
        have := List.append_inj_right' e rfl
        simp at this
      | [x], _ =>
        have := List.append_inj_right' hp rfl
        simp at this

/-- Witness of C15: on the exhaustion run the third acquire of the run comes
after the second read, with no acquire in between. -/
theorem GetState_bounded_retries_witness :
    ∃ (pre' : List (DriverCall Nat)) (hr' : HRESULT) (data : Nat) (acqs : List (DriverCall Nat)),
      [DriverCall.read DIERR_NOTACQUIRED 1, DriverCall.acquire DIERR_INPUTLOST,
          DriverCall.acquire DIERR_INPUTLOST, DriverCall.read DIERR_NOTACQUIRED 1]
        = pre' ++ DriverCall.read hr' data :: acqs ∧
      (hr' = DIERR_INPUTLOST ∨ hr' = DIERR_NOTACQUIRED) ∧
      acqs.length < 2 ∧ ∀ x ∈ acqs, x.isAcquire = true :=
  (GetState_bounded_retries (scripted Nat)
    (some [(DIERR_NOTACQUIRED, 5), (DIERR_INPUTLOST, 0), (DIERR_INPUTLOST, 0),
      (DIERR_NOTACQUIRED, 6), (DIERR_INPUTLOST, 0), (DIERR_INPUTLOST, 0)]) 4 1).2.1
    [DriverCall.read DIERR_NOTACQUIRED 1, DriverCall.acquire DIERR_INPUTLOST,
      DriverCall.acquire DIERR_INPUTLOST, DriverCall.read DIERR_NOTACQUIRED 1]
    [DriverCall.acquire DIERR_INPUTLOST] DIERR_INPUTLOST (by decide)

/-- C18: if the first read fails with `DIERR_INPUTLOST` or
`DIERR_NOTACQUIRED` and both acquires after it fail with `DIERR_INPUTLOST` or
`E_ACCESSDENIED`, `GetState` still makes the second read; if that read
succeeds, it returns `true` with that read's data after exactly 2 reads and 2
acquires. -/
theorem GetState_reads_again_after_failed_acquires (d : IDirectInputDevice8W σ β) (s : σ)
    (size : Nat) (ptr : β) (r1 r2 : ReadResult σ β) (a1 a2 : AcquireResult σ)
    (e1 : d.GetDeviceState s size ptr = r1)
    (h1 : r1.status = DIERR_INPUTLOST ∨ r1.status = DIERR_NOTACQUIRED)
    (e2 : d.Acquire r1.dev = a1)
    (h2 : a1.status = DIERR_INPUTLOST ∨ a1.status = E_ACCESSDENIED)
    (e3 : d.Acquire a1.dev = a2)
    (h3 : a2.status = DIERR_INPUTLOST ∨ a2.status = E_ACCESSDENIED)
    (e4 : d.GetDeviceState a2.dev size r1.buf = r2) :
    (∃ rest, (GetState d (some s) size ptr).calls =
        [DriverCall.read r1.status r1.buf, DriverCall.acquire a1.status,
          DriverCall.acquire a2.status, DriverCall.read r2.status r2.buf] ++ rest) ∧
      (SUCCEEDED r2.status = true →
        (GetState d (some s) size ptr).outcome = Outcome.returned true ∧
        (GetState d (some s) size ptr).buf = r2.buf ∧
        (GetState d (some s) size ptr).calls =
          [DriverCall.read r1.status r1.buf, DriverCall.acquire a1.status,
            DriverCall.acquire a2.status, DriverCall.read r2.status r2.buf] ∧
        readCount (GetState d (some s) size ptr).calls = 2 ∧
        acquireCount (GetState d (some s) size ptr).calls = 2) := by
  have hf1 : SUCCEEDED r1.status = false := by
    rcases h1 with e | e <;> rw [e] <;> decide
  have ht1 : ¬(r1.status ≠ DIERR_INPUTLOST ∧ r1.status ≠ DIERR_NOTACQUIRED) := by
    rcases h1 with e | e
    · exact fun c => c.1 e
    · exact fun c => c.2 e
  have hf2 : SUCCEEDED a1.status = false := by
    rcases h2 with e | e <;> rw [e] <;> decide
  have ht2 : ¬(a1.status ≠ DIERR_INPUTLOST ∧ a1.status ≠ E_ACCESSDENIED) := by
    rcases h2 with e | e
    · exact fun c => c.1 e
    · exact fun c => c.2 e
  have hf3 : SUCCEEDED a2.status = false := by
    rcases h3 with e | e <;> rw [e] <;> decide
  have ht3 : ¬(a2.status ≠ DIERR_INPUTLOST ∧ a2.status ≠ E_ACCESSDENIED) := by
    rcases h3 with e | e
    · exact fun c => c.1 e
    · exact fun c => c.2 e
  have hacq : (acquireLoop d AQUIRE_RETRIES r1.dev : AcquireRun σ β) =
      ⟨none, a2.dev, [DriverCall.acquire a1.status, DriverCall.acquire a2.status]⟩ := by
    simp [AQUIRE_RETRIES, acquireLoop, e2, e3, hf2, ht2, hf3, ht3]
  have hfirst : stateLoop d size GET_STATE_RETRIES s ptr =
      ⟨(stateLoop d size 1 a2.dev r1.buf).outcome, (stateLoop d size 1 a2.dev r1.buf).buf,
        (stateLoop d size 1 a2.dev r1.buf).dev,
        DriverCall.read r1.status r1.buf ::
          ([DriverCall.acquire a1.status, DriverCall.acquire a2.status] ++
            (stateLoop d size 1 a2.dev r1.buf).calls)⟩ := by
    have hc := stateLoop_succ_cases d size 1 s ptr
    rw [e1, hacq] at hc
    rcases hc with ⟨c1, _⟩ | ⟨_, c2, _⟩ | ⟨_, _, code, c3, _⟩ | ⟨_, _, _, he⟩
    · rw [hf1] at c1; simp at c1
    · exact absurd c2 ht1
    · simp at c3
    · exact he
  refine ⟨?_, fun hs => ?_⟩
  · show ∃ rest, (stateLoop d size GET_STATE_RETRIES s ptr).calls = _
    rw [hfirst]
    rcases stateLoop_succ_cases d size 0 a2.dev r1.buf with
      ⟨_, he⟩ | ⟨_, _, he⟩ | ⟨_, _, code, _, he⟩ | ⟨_, _, _, he⟩ <;>
    · rw [he, e4]
      exact ⟨_, by simp; rfl⟩
  · have hsec : stateLoop d size 1 a2.dev r1.buf =
        ⟨Outcome.returned true, r2.buf, r2.dev, [DriverCall.read r2.status r2.buf]⟩ := by
      simp [stateLoop, e4, hs]
    show (stateLoop d size GET_STATE_RETRIES s ptr).outcome = _ ∧
      (stateLoop d size GET_STATE_RETRIES s ptr).buf = _ ∧
      (stateLoop d size GET_STATE_RETRIES s ptr).calls = _ ∧
      readCount (stateLoop d size GET_STATE_RETRIES s ptr).calls = 2 ∧
      acquireCount (stateLoop d size GET_STATE_RETRIES s ptr).calls = 2
    rw [hfirst, hsec]
    simp [readCount, acquireCount, DriverCall.isRead, DriverCall.isAcquire]

/-- Witness of C18: read `DIERR_NOTACQUIRED`, acquires `DIERR_INPUTLOST` and
`E_ACCESSDENIED`, then a read that succeeds with data `7`. -/
theorem GetState_reads_again_after_failed_acquires_witness :
    (GetState (scripted Nat)
        (some [(DIERR_NOTACQUIRED, 5), (DIERR_INPUTLOST, 0), (E_ACCESSDENIED, 0), (0, 7)])
        4 1).outcome = Outcome.returned true ∧
      (GetState (scripted Nat)
        (some [(DIERR_NOTACQUIRED, 5), (DIERR_INPUTLOST, 0), (E_ACCESSDENIED, 0), (0, 7)])
        4 1).buf = 7 ∧
      (GetState (scripted Nat)
        (some [(DIERR_NOTACQUIRED, 5), (DIERR_INPUTLOST, 0), (E_ACCESSDENIED, 0), (0, 7)])
        4 1).calls =
        [DriverCall.read DIERR_NOTACQUIRED 1, DriverCall.acquire DIERR_INPUTLOST,
          DriverCall.acquire E_ACCESSDENIED, DriverCall.read 0 7] ∧
      readCount (GetState (scripted Nat)
        (some [(DIERR_NOTACQUIRED, 5), (DIERR_INPUTLOST, 0), (E_ACCESSDENIED, 0), (0, 7)])
        4 1).calls = 2 ∧
      acquireCount (GetState (scripted Nat)
        (some [(DIERR_NOTACQUIRED, 5), (DIERR_INPUTLOST, 0), (E_ACCESSDENIED, 0), (0, 7)])
        4 1).calls = 2 :=
  (GetState_reads_again_after_failed_acquires (scripted Nat)
    [(DIERR_NOTACQUIRED, 5), (DIERR_INPUTLOST, 0), (E_ACCESSDENIED, 0), (0, 7)] 4 1
    ⟨DIERR_NOTACQUIRED, 1, [(DIERR_INPUTLOST, 0), (E_ACCESSDENIED, 0), (0, 7)]⟩
    ⟨0, 7, []⟩
    ⟨DIERR_INPUTLOST, [(E_ACCESSDENIED, 0), (0, 7)]⟩
    ⟨E_ACCESSDENIED, [(0, 7)]⟩
    rfl (Or.inr rfl) rfl (Or.inl rfl) rfl (Or.inr rfl) rfl).2 (by decide)

end Retries

/-! ## Runs on the driver's answers -/

section Answers

variable {σ β : Type}

/-- A read status `DIERR_INPUTLOST` or `DIERR_NOTACQUIRED` is a failure that
the outer loop does not raise. -/
theorem read_transient {hr : HRESULT} (h : hr = DIERR_INPUTLOST ∨ hr = DIERR_NOTACQUIRED) :
    SUCCEEDED hr = false ∧ ¬(hr ≠ DIERR_INPUTLOST ∧ hr ≠ DIERR_NOTACQUIRED) := by
  rcases h with e | e
  · exact ⟨by rw [e]; decide, fun c => c.1 e⟩
  · exact ⟨by rw [e]; decide, fun c => c.2 e⟩

/-- An acquire status `DIERR_INPUTLOST` or `E_ACCESSDENIED` is a failure that
the inner loop does not raise. -/
theorem acquire_transient {hr : HRESULT} (h : hr = DIERR_INPUTLOST ∨ hr = E_ACCESSDENIED) :
    SUCCEEDED hr = false ∧ ¬(hr ≠ DIERR_INPUTLOST ∧ hr ≠ E_ACCESSDENIED) := by
  rcases h with e | e
  · exact ⟨by rw [e]; decide, fun c => c.1 e⟩
  · exact ⟨by rw [e]; decide, fun c => c.2 e⟩

/-- Inner loop, first acquire succeeds. -/
theorem acquireLoop_of_success (d : IDirectInputDevice8W σ β) (x : σ)
    (h : SUCCEEDED (d.Acquire x).status = true) :
    (acquireLoop d AQUIRE_RETRIES x : AcquireRun σ β) =
      ⟨none, (d.Acquire x).dev, [DriverCall.acquire (d.Acquire x).status]⟩ := by
  simp [AQUIRE_RETRIES, acquireLoop, h]

/-- Inner loop, first acquire fails with a status that is raised. -/
theorem acquireLoop_of_fatal (d : IDirectInputDevice8W σ β) (x : σ)
    (hs : SUCCEEDED (d.Acquire x).status = false)
    (hl : (d.Acquire x).status ≠ DIERR_INPUTLOST) (ha : (d.Acquire x).status ≠ E_ACCESSDENIED) :
    (acquireLoop d AQUIRE_RETRIES x : AcquireRun σ β) =
      ⟨some (d.Acquire x).status, (d.Acquire x).dev,
        [DriverCall.acquire (d.Acquire x).status]⟩ := by
  simp [AQUIRE_RETRIES, acquireLoop, hs, hl, ha]

/-- Inner loop, first acquire transient, second acquire succeeds or is
transient. -/
theorem acquireLoop_of_retry (d : IDirectInputDevice8W σ β) (x : σ)
    (h1 : (d.Acquire x).status = DIERR_INPUTLOST ∨ (d.Acquire x).status = E_ACCESSDENIED)
    (h2 : SUCCEEDED (d.Acquire (d.Acquire x).dev).status = true ∨
      (d.Acquire (d.Acquire x).dev).status = DIERR_INPUTLOST ∨
      (d.Acquire (d.Acquire x).dev).status = E_ACCESSDENIED) :
    (acquireLoop d AQUIRE_RETRIES x : AcquireRun σ β) =
      ⟨none, (d.Acquire (d.Acquire x).dev).dev,
        [DriverCall.acquire (d.Acquire x).status,
          DriverCall.acquire (d.Acquire (d.Acquire x).dev).status]⟩ := by
  obtain ⟨hf, ht⟩ := acquire_transient h1
  rcases h2 with h2 | h2
  · simp [AQUIRE_RETRIES, acquireLoop, hf, ht, h2]
  · obtain ⟨hf2, ht2⟩ := acquire_transient h2
    simp [AQUIRE_RETRIES, acquireLoop, hf, ht, hf2, ht2]

/-- Inner loop, first acquire transient, second acquire fails with a status
that is raised. -/
theorem acquireLoop_of_retry_fatal (d : IDirectInputDevice8W σ β) (x : σ)
    (h1 : (d.Acquire x).status = DIERR_INPUTLOST ∨ (d.Acquire x).status = E_ACCESSDENIED)
    (hs : SUCCEEDED (d.Acquire (d.Acquire x).dev).status = false)
    (hl : (d.Acquire (d.Acquire x).dev).status ≠ DIERR_INPUTLOST)
    (ha : (d.Acquire (d.Acquire x).dev).status ≠ E_ACCESSDENIED) :
    (acquireLoop d AQUIRE_RETRIES x : AcquireRun σ β) =
      ⟨some (d.Acquire (d.Acquire x).dev).status, (d.Acquire (d.Acquire x).dev).dev,
        [DriverCall.acquire (d.Acquire x).status,
          DriverCall.acquire (d.Acquire (d.Acquire x).dev).status]⟩ := by
  obtain ⟨hf, ht⟩ := acquire_transient h1
  simp [AQUIRE_RETRIES, acquireLoop, hf, ht, hs, hl, ha]

/-- An inner loop that does not raise went one of two ways on the driver's
answers. -/
theorem acquireLoop_none_cases (d : IDirectInputDevice8W σ β) (x : σ)
    (h : (acquireLoop d AQUIRE_RETRIES x : AcquireRun σ β).raised = none) :
    SUCCEEDED (d.Acquire x).status = true ∨
      (((d.Acquire x).status = DIERR_INPUTLOST ∨ (d.Acquire x).status = E_ACCESSDENIED) ∧
        (SUCCEEDED (d.Acquire (d.Acquire x).dev).status = true ∨
          (d.Acquire (d.Acquire x).dev).status = DIERR_INPUTLOST ∨
          (d.Acquire (d.Acquire x).dev).status = E_ACCESSDENIED)) := by
  by_cases h1 : SUCCEEDED (d.Acquire x).status = true
  · exact Or.inl h1
  · right
    have hf1 : SUCCEEDED (d.Acquire x).status = false := by simpa using h1
    by_cases c1 : (d.Acquire x).status ≠ DIERR_INPUTLOST ∧ (d.Acquire x).status ≠ E_ACCESSDENIED
    · rw [acquireLoop_of_fatal d x hf1 c1.1 c1.2] at h
      simp at h
    · have t1 : (d.Acquire x).status = DIERR_INPUTLOST ∨
          (d.Acquire x).status = E_ACCESSDENIED := by
        by_contra hc
        exact c1 ⟨fun e => hc (Or.inl e), fun e => hc (Or.inr e)⟩
      refine ⟨t1, ?_⟩
      by_cases h2 : SUCCEEDED (d.Acquire (d.Acquire x).dev).status = true
      · exact Or.inl h2
      · right
        have hf2 : SUCCEEDED (d.Acquire (d.Acquire x).dev).status = false := by simpa using h2
        by_contra hc
        rw [acquireLoop_of_retry_fatal d x t1 hf2 (fun e => hc (Or.inl e))
          (fun e => hc (Or.inr e))] at h
        simp at h

/-- Outer loop, the read succeeds. -/
theorem stateLoop_of_success (d : IDirectInputDevice8W σ β) (size n : Nat) (s : σ) (ptr : β)
    (h : SUCCEEDED (d.GetDeviceState s size ptr).status = true) :
    stateLoop d size (n + 1) s ptr =
      ⟨Outcome.returned true, (d.GetDeviceState s size ptr).buf,
        (d.GetDeviceState s size ptr).dev,
        [DriverCall.read (d.GetDeviceState s size ptr).status
          (d.GetDeviceState s size ptr).buf]⟩ := by
  simp [stateLoop, h]

/-- Outer loop, the read fails with a status that is raised. -/
theorem stateLoop_of_fatal (d : IDirectInputDevice8W σ β) (size n : Nat) (s : σ) (ptr : β)
    (hs : SUCCEEDED (d.GetDeviceState s size ptr).status = false)
    (hl : (d.GetDeviceState s size ptr).status ≠ DIERR_INPUTLOST)
    (hn : (d.GetDeviceState s size ptr).status ≠ DIERR_NOTACQUIRED) :
    stateLoop d size (n + 1) s ptr =
      ⟨Outcome.raised (d.GetDeviceState s size ptr).status, (d.GetDeviceState s size ptr).buf,
        (d.GetDeviceState s size ptr).dev,
        [DriverCall.read (d.GetDeviceState s size ptr).status
          (d.GetDeviceState s size ptr).buf]⟩ := by
  simp [stateLoop, hs, hl, hn]

/-- Outer loop, the read is transient and the inner loop raises. -/
theorem stateLoop_of_raise (d : IDirectInputDevice8W σ β) (size n : Nat) (s : σ) (ptr : β)
    (ht : (d.GetDeviceState s size ptr).status = DIERR_INPUTLOST ∨
      (d.GetDeviceState s size ptr).status = DIERR_NOTACQUIRED)
    (code : HRESULT) (t : σ) (P : List (DriverCall β))
    (ha : (acquireLoop d AQUIRE_RETRIES (d.GetDeviceState s size ptr).dev : AcquireRun σ β)
      = ⟨some code, t, P⟩) :
    stateLoop d size (n + 1) s ptr =
      ⟨Outcome.raised code, (d.GetDeviceState s size ptr).buf, t,
        DriverCall.read (d.GetDeviceState s size ptr).status
          (d.GetDeviceState s size ptr).buf :: P⟩ := by
  obtain ⟨hf, hnt⟩ := read_transient ht
  simp only [stateLoop, hf, hnt, ha]
  simp

/-- Outer loop, the read is transient and the inner loop ends without a
raise: the loop goes on from the driver state the inner loop left. -/
theorem stateLoop_of_pass (d : IDirectInputDevice8W σ β) (size n : Nat) (s : σ) (ptr : β)
    (ht : (d.GetDeviceState s size ptr).status = DIERR_INPUTLOST ∨
      (d.GetDeviceState s size ptr).status = DIERR_NOTACQUIRED)
    (t : σ) (P : List (DriverCall β))
    (ha : (acquireLoop d AQUIRE_RETRIES (d.GetDeviceState s size ptr).dev : AcquireRun σ β)
      = ⟨none, t, P⟩) :
    stateLoop d size (n + 1) s ptr =
      ⟨(stateLoop d size n t (d.GetDeviceState s size ptr).buf).outcome,
        (stateLoop d size n t (d.GetDeviceState s size ptr).buf).buf,
        (stateLoop d size n t (d.GetDeviceState s size ptr).buf).dev,
        DriverCall.read (d.GetDeviceState s size ptr).status
            (d.GetDeviceState s size ptr).buf ::
          (P ++ (stateLoop d size n t (d.GetDeviceState s size ptr).buf).calls)⟩ := by
  obtain ⟨hf, hnt⟩ := read_transient ht
  simp only [stateLoop, hf, hnt, ha]
  simp

/-- `GetState` with a present handle is the outer loop with 2 iterations. -/
theorem GetState_some_eq (d : IDirectInputDevice8W σ β) (s : σ) (size : Nat) (ptr : β) :
    GetState d (some s) size ptr =
      ⟨(stateLoop d size (0 + 1 + 1) s ptr).outcome, (stateLoop d size (0 + 1 + 1) s ptr).buf,
        some (stateLoop d size (0 + 1 + 1) s ptr).dev, (stateLoop d size (0 + 1 + 1) s ptr).calls⟩ :=
  rfl

/-- Outer loop with one iteration left, transient read, first acquire
succeeds: the loop returns `false` after the read and the acquire. -/
theorem stateLoop_last_of_success (d : IDirectInputDevice8W σ β) (size : Nat) (s : σ) (ptr : β)
    (ht : (d.GetDeviceState s size ptr).status = DIERR_INPUTLOST ∨
      (d.GetDeviceState s size ptr).status = DIERR_NOTACQUIRED)
    (h1 : SUCCEEDED (d.Acquire (d.GetDeviceState s size ptr).dev).status = true) :
    stateLoop d size (0 + 1) s ptr =
      ⟨Outcome.returned false, (d.GetDeviceState s size ptr).buf,
        (d.Acquire (d.GetDeviceState s size ptr).dev).dev,
        [DriverCall.read (d.GetDeviceState s size ptr).status (d.GetDeviceState s size ptr).buf,
          DriverCall.acquire (d.Acquire (d.GetDeviceState s size ptr).dev).status]⟩ := by
  rw [stateLoop_of_pass d size 0 s ptr ht _ _ (acquireLoop_of_success d _ h1)]
  simp [stateLoop]

/-- Outer loop with one iteration left, transient read, first acquire
transient, second acquire succeeds or is transient: the loop returns `false`
after the read and both acquires. -/
theorem stateLoop_last_of_retry (d : IDirectInputDevice8W σ β) (size : Nat) (s : σ) (ptr : β)
    (ht : (d.GetDeviceState s size ptr).status = DIERR_INPUTLOST ∨
      (d.GetDeviceState s size ptr).status = DIERR_NOTACQUIRED)
    (h1 : (d.Acquire (d.GetDeviceState s size ptr).dev).status = DIERR_INPUTLOST ∨
      (d.Acquire (d.GetDeviceState s size ptr).dev).status = E_ACCESSDENIED)
    (h2 : SUCCEEDED (d.Acquire (d.Acquire (d.GetDeviceState s size ptr).dev).dev).status = true ∨
      (d.Acquire (d.Acquire (d.GetDeviceState s size ptr).dev).dev).status = DIERR_INPUTLOST ∨
      (d.Acquire (d.Acquire (d.GetDeviceState s size ptr).dev).dev).status = E_ACCESSDENIED) :
    stateLoop d size (0 + 1) s ptr =
      ⟨Outcome.returned false, (d.GetDeviceState s size ptr).buf,
        (d.Acquire (d.Acquire (d.GetDeviceState s size ptr).dev).dev).dev,
        [DriverCall.read (d.GetDeviceState s size ptr).status (d.GetDeviceState s size ptr).buf,
          DriverCall.acquire (d.Acquire (d.GetDeviceState s size ptr).dev).status,
          DriverCall.acquire
            (d.Acquire (d.Acquire (d.GetDeviceState s size ptr).dev).dev).status]⟩ := by
  rw [stateLoop_of_pass d size 0 s ptr ht _ _ (acquireLoop_of_retry d _ h1 h2)]
  simp [stateLoop]

/-- An outer-loop iteration that neither returns `true` nor raises had a
transient read and an inner loop that did not raise. -/
theorem stateLoop_false_cases (d : IDirectInputDevice8W σ β) (size n : Nat) (s : σ) (ptr : β)
    (h : (stateLoop d size (n + 1) s ptr).outcome = Outcome.returned false) :
    ((d.GetDeviceState s size ptr).status = DIERR_INPUTLOST ∨
        (d.GetDeviceState s size ptr).status = DIERR_NOTACQUIRED) ∧
      (acquireLoop d AQUIRE_RETRIES (d.GetDeviceState s size ptr).dev :
        AcquireRun σ β).raised = none := by
  rcases stateLoop_succ_cases d size n s ptr with
    ⟨_, he⟩ | ⟨_, _, he⟩ | ⟨_, _, code, _, he⟩ | ⟨_, h2, h3, _⟩
  · rw [he] at h; simp at h
  · rw [he] at h; simp at h
  · rw [he] at h; simp at h
  · exact ⟨h2, h3⟩

end Answers

/-! ## Raises, exhaustion and the false return, on the driver's answers -/

section OnAnswers

variable {σ β : Type}

/-- C4: a state read that the driver answers with a failure status other than
`DIERR_INPUTLOST` and `DIERR_NOTACQUIRED` makes `GetState` raise exactly that
status, and the read is the last driver call.  `r1` is the driver's answer to
the first read; `r2` its answer to the second read when the first acquire
`a1` succeeded; `r3` its answer to the second read when `a1` was transient and
the second acquire `a2` was not raised.  With `r1` the run is 1 read and 0
acquires.  The same holds of any read in the call list of the run. -/
theorem GetState_read_fatal (d : IDirectInputDevice8W σ β) (s : σ) (size : Nat) (ptr : β)
    (r1 r2 r3 : ReadResult σ β) (a1 a2 : AcquireResult σ)
    (e1 : d.GetDeviceState s size ptr = r1)
    (e2 : d.Acquire r1.dev = a1)
    (e3 : d.Acquire a1.dev = a2)
    (e4 : d.GetDeviceState a1.dev size r1.buf = r2)
    (e5 : d.GetDeviceState a2.dev size r1.buf = r3) :
    (SUCCEEDED r1.status = false → r1.status ≠ DIERR_INPUTLOST →
        r1.status ≠ DIERR_NOTACQUIRED →
        (GetState d (some s) size ptr).outcome = Outcome.raised r1.status ∧
        (GetState d (some s) size ptr).calls = [DriverCall.read r1.status r1.buf] ∧
        readCount (GetState d (some s) size ptr).calls = 1 ∧
        acquireCount (GetState d (some s) size ptr).calls = 0) ∧
      ((r1.status = DIERR_INPUTLOST ∨ r1.status = DIERR_NOTACQUIRED) →
        SUCCEEDED a1.status = true →
        SUCCEEDED r2.status = false → r2.status ≠ DIERR_INPUTLOST →
        r2.status ≠ DIERR_NOTACQUIRED →
        (GetState d (some s) size ptr).outcome = Outcome.raised r2.status ∧
        (GetState d (some s) size ptr).calls =
          [DriverCall.read r1.status r1.buf, DriverCall.acquire a1.status,
            DriverCall.read r2.status r2.buf]) ∧
      ((r1.status = DIERR_INPUTLOST ∨ r1.status = DIERR_NOTACQUIRED) →
        (a1.status = DIERR_INPUTLOST ∨ a1.status = E_ACCESSDENIED) →
        (SUCCEEDED a2.status = true ∨ a2.status = DIERR_INPUTLOST ∨
          a2.status = E_ACCESSDENIED) →
        SUCCEEDED r3.status = false → r3.status ≠ DIERR_INPUTLOST →
        r3.status ≠ DIERR_NOTACQUIRED →
        (GetState d (some s) size ptr).outcome = Outcome.raised r3.status ∧
        (GetState d (some s) size ptr).calls =
          [DriverCall.read r1.status r1.buf, DriverCall.acquire a1.status,
            DriverCall.acquire a2.status, DriverCall.read r3.status r3.buf]) ∧
      (∀ (pre post : List (DriverCall β)) (hr : HRESULT) (data : β),
        (GetState d (some s) size ptr).calls = pre ++ DriverCall.read hr data :: post →
        SUCCEEDED hr = false → hr ≠ DIERR_INPUTLOST → hr ≠ DIERR_NOTACQUIRED →
        (GetState d (some s) size ptr).outcome = Outcome.raised hr ∧ post = []) := by
  subst e5 e4 e3 e2 e1
  refine ⟨fun hs hl hn => ?_, fun ht h1 hs hl hn => ?_, fun ht h1 h2 hs hl hn => ?_,
    fun pre post hr data h hs hl hn => ?_⟩
  · rw [GetState_some_eq, stateLoop_of_fatal d size (0 + 1) s ptr hs hl hn]
    simp [readCount, acquireCount, DriverCall.isRead, DriverCall.isAcquire]
  · rw [GetState_some_eq,
      stateLoop_of_pass d size (0 + 1) s ptr ht _ _ (acquireLoop_of_success d _ h1),
      stateLoop_of_fatal d size 0 _ _ hs hl hn]
    simp
  · rw [GetState_some_eq,
      stateLoop_of_pass d size (0 + 1) s ptr ht _ _ (acquireLoop_of_retry d _ h1 h2),
      stateLoop_of_fatal d size 0 _ _ hs hl hn]
    simp
  · exact stateLoop_read_fatal d size GET_STATE_RETRIES s ptr pre post hr data h hs hl hn

/-- Witness of C4: the driver answers the first read with `E_FAIL`; and, on
another script, the second read after a successful acquire. -/
theorem GetState_read_fatal_witness :
    ((GetState (scripted Nat) (some [(E_FAIL, 5), (0, 0)]) 4 1).outcome = Outcome.raised E_FAIL ∧
      (GetState (scripted Nat) (some [(E_FAIL, 5), (0, 0)]) 4 1).calls
        = [DriverCall.read E_FAIL 1] ∧
      readCount (GetState (scripted Nat) (some [(E_FAIL, 5), (0, 0)]) 4 1).calls = 1 ∧
      acquireCount (GetState (scripted Nat) (some [(E_FAIL, 5), (0, 0)]) 4 1).calls = 0) ∧
    ((GetState (scripted Nat) (some [(DIERR_INPUTLOST, 5), (0, 0), (E_FAIL, 0)]) 4 1).outcome
        = Outcome.raised E_FAIL ∧
      (GetState (scripted Nat) (some [(DIERR_INPUTLOST, 5), (0, 0), (E_FAIL, 0)]) 4 1).calls
        = [DriverCall.read DIERR_INPUTLOST 1, DriverCall.acquire 0, DriverCall.read E_FAIL 1]) :=
  ⟨(GetState_read_fatal (scripted Nat) [(E_FAIL, 5), (0, 0)] 4 1 _ _ _ _ _
      rfl rfl rfl rfl rfl).1 (by decide) (by decide) (by decide),
    (GetState_read_fatal (scripted Nat) [(DIERR_INPUTLOST, 5), (0, 0), (E_FAIL, 0)] 4 1 _ _ _ _ _
      rfl rfl rfl rfl rfl).2.1 (by decide) (by decide) (by decide) (by decide) (by decide)⟩

/-- C5: an acquire that the driver answers with a failure status other than
`DIERR_INPUTLOST` and `E_ACCESSDENIED` makes `GetState` raise exactly that
status, and the acquire is the last driver call: no further acquire, no
further read.  `r1` is the driver's answer to the first read and `a1`, `a2`
its answers to the acquires after it; `r2`, `b1`, `b2` are the second read and
its acquires when `a1` succeeded; `r3`, `c1`, `c2` are the second read and its
acquires when `a1` was transient and `a2` was not raised.  These are all the
acquires a run can make; the same holds of any acquire in the call list of the
run. -/
theorem GetState_acquire_fatal (d : IDirectInputDevice8W σ β) (s : σ) (size : Nat) (ptr : β)
    (r1 r2 r3 : ReadResult σ β) (a1 a2 b1 b2 c1 c2 : AcquireResult σ)
    (e1 : d.GetDeviceState s size ptr = r1)
    (e2 : d.Acquire r1.dev = a1)
    (e3 : d.Acquire a1.dev = a2)
    (e4 : d.GetDeviceState a1.dev size r1.buf = r2)
    (e5 : d.Acquire r2.dev = b1)
    (e6 : d.Acquire b1.dev = b2)
    (e7 : d.GetDeviceState a2.dev size r1.buf = r3)
    (e8 : d.Acquire r3.dev = c1)
    (e9 : d.Acquire c1.dev = c2) :
    ((r1.status = DIERR_INPUTLOST ∨ r1.status = DIERR_NOTACQUIRED) →
        SUCCEEDED a1.status = false → a1.status ≠ DIERR_INPUTLOST →
        a1.status ≠ E_ACCESSDENIED →
        (GetState d (some s) size ptr).outcome = Outcome.raised a1.status ∧
        (GetState d (some s) size ptr).calls =
          [DriverCall.read r1.status r1.buf,
            DriverCall.acquire a1.status]) ∧
      ((r1.status = DIERR_INPUTLOST ∨ r1.status = DIERR_NOTACQUIRED) →
        (a1.status = DIERR_INPUTLOST ∨ a1.status = E_ACCESSDENIED) →
        SUCCEEDED a2.status = false → a2.status ≠ DIERR_INPUTLOST →
        a2.status ≠ E_ACCESSDENIED →
        (GetState d (some s) size ptr).outcome = Outcome.raised a2.status ∧
        (GetState d (some s) size ptr).calls =
          [DriverCall.read r1.status r1.buf,
            DriverCall.acquire a1.status,
            DriverCall.acquire a2.status]) ∧
      ((r1.status = DIERR_INPUTLOST ∨ r1.status = DIERR_NOTACQUIRED) →
        SUCCEEDED a1.status = true →
        (r2.status = DIERR_INPUTLOST ∨ r2.status = DIERR_NOTACQUIRED) →
        SUCCEEDED b1.status = false → b1.status ≠ DIERR_INPUTLOST →
        b1.status ≠ E_ACCESSDENIED →
        (GetState d (some s) size ptr).outcome = Outcome.raised b1.status ∧
        (GetState d (some s) size ptr).calls =
          [DriverCall.read r1.status r1.buf,
            DriverCall.acquire a1.status,
            DriverCall.read r2.status r2.buf,
            DriverCall.acquire b1.status]) ∧
      ((r1.status = DIERR_INPUTLOST ∨ r1.status = DIERR_NOTACQUIRED) →
        SUCCEEDED a1.status = true →
        (r2.status = DIERR_INPUTLOST ∨ r2.status = DIERR_NOTACQUIRED) →
        (b1.status = DIERR_INPUTLOST ∨ b1.status = E_ACCESSDENIED) →
        SUCCEEDED b2.status = false → b2.status ≠ DIERR_INPUTLOST →
        b2.status ≠ E_ACCESSDENIED →
        (GetState d (some s) size ptr).outcome = Outcome.raised b2.status ∧
        (GetState d (some s) size ptr).calls =
          [DriverCall.read r1.status r1.buf,
            DriverCall.acquire a1.status,
            DriverCall.read r2.status r2.buf,
            DriverCall.acquire b1.status,
            DriverCall.acquire b2.status]) ∧
      ((r1.status = DIERR_INPUTLOST ∨ r1.status = DIERR_NOTACQUIRED) →
        (a1.status = DIERR_INPUTLOST ∨ a1.status = E_ACCESSDENIED) →
        (SUCCEEDED a2.status = true ∨ a2.status = DIERR_INPUTLOST ∨
          a2.status = E_ACCESSDENIED) →
        (r3.status = DIERR_INPUTLOST ∨ r3.status = DIERR_NOTACQUIRED) →
        SUCCEEDED c1.status = false → c1.status ≠ DIERR_INPUTLOST →
        c1.status ≠ E_ACCESSDENIED →
        (GetState d (some s) size ptr).outcome = Outcome.raised c1.status ∧
        (GetState d (some s) size ptr).calls =
          [DriverCall.read r1.status r1.buf,
            DriverCall.acquire a1.status,
            DriverCall.acquire a2.status,
            DriverCall.read r3.status r3.buf,
            DriverCall.acquire c1.status]) ∧
      ((r1.status = DIERR_INPUTLOST ∨ r1.status = DIERR_NOTACQUIRED) →
        (a1.status = DIERR_INPUTLOST ∨ a1.status = E_ACCESSDENIED) →
        (SUCCEEDED a2.status = true ∨ a2.status = DIERR_INPUTLOST ∨
          a2.status = E_ACCESSDENIED) →
        (r3.status = DIERR_INPUTLOST ∨ r3.status = DIERR_NOTACQUIRED) →
        (c1.status = DIERR_INPUTLOST ∨ c1.status = E_ACCESSDENIED) →
        SUCCEEDED c2.status = false → c2.status ≠ DIERR_INPUTLOST →
        c2.status ≠ E_ACCESSDENIED →
        (GetState d (some s) size ptr).outcome = Outcome.raised c2.status ∧
        (GetState d (some s) size ptr).calls =
          [DriverCall.read r1.status r1.buf,
            DriverCall.acquire a1.status,
            DriverCall.acquire a2.status,
            DriverCall.read r3.status r3.buf,
            DriverCall.acquire c1.status,
            DriverCall.acquire c2.status]) ∧
      (∀ (pre post : List (DriverCall β)) (hr : HRESULT),
        (GetState d (some s) size ptr).calls = pre ++ DriverCall.acquire hr :: post →
        SUCCEEDED hr = false → hr ≠ DIERR_INPUTLOST → hr ≠ E_ACCESSDENIED →
        (GetState d (some s) size ptr).outcome = Outcome.raised hr ∧ post = []) := by
  subst e9 e8 e7 e6 e5 e4 e3 e2 e1
  refine ⟨fun ht hs hl ha => ?_, fun ht h1 hs hl ha => ?_, fun ht h1 ht2 hs hl ha => ?_,
    fun ht h1 ht2 h3 hs hl ha => ?_, fun ht h1 h2 ht2 hs hl ha => ?_,
    fun ht h1 h2 ht2 h3 hs hl ha => ?_, fun pre post hr h hs hl ha => ?_⟩
  · rw [GetState_some_eq,
      stateLoop_of_raise d size (0 + 1) s ptr ht _ _ _ (acquireLoop_of_fatal d _ hs hl ha)]
    simp
  · rw [GetState_some_eq,
      stateLoop_of_raise d size (0 + 1) s ptr ht _ _ _
        (acquireLoop_of_retry_fatal d _ h1 hs hl ha)]
    simp
  · rw [GetState_some_eq,
      stateLoop_of_pass d size (0 + 1) s ptr ht _ _ (acquireLoop_of_success d _ h1),
      stateLoop_of_raise d size 0 _ _ ht2 _ _ _ (acquireLoop_of_fatal d _ hs hl ha)]
    simp
  · rw [GetState_some_eq,
      stateLoop_of_pass d size (0 + 1) s ptr ht _ _ (acquireLoop_of_success d _ h1),
      stateLoop_of_raise d size 0 _ _ ht2 _ _ _ (acquireLoop_of_retry_fatal d _ h3 hs hl ha)]
    simp
  · rw [GetState_some_eq,
      stateLoop_of_pass d size (0 + 1) s ptr ht _ _ (acquireLoop_of_retry d _ h1 h2),
      stateLoop_of_raise d size 0 _ _ ht2 _ _ _ (acquireLoop_of_fatal d _ hs hl ha)]
    simp
  · rw [GetState_some_eq,
      stateLoop_of_pass d size (0 + 1) s ptr ht _ _ (acquireLoop_of_retry d _ h1 h2),
      stateLoop_of_raise d size 0 _ _ ht2 _ _ _ (acquireLoop_of_retry_fatal d _ h3 hs hl ha)]
    simp
  · exact stateLoop_acquire_fatal d size GET_STATE_RETRIES s ptr pre post hr h hs hl ha

/-- Witness of C5: the read fails with `DIERR_INPUTLOST`, the first acquire
with `E_ACCESSDENIED` and the second acquire with `E_FAIL`, although a success
is scripted next; and, on another script, the first acquire after the second
read fails with `E_FAIL`. -/
theorem GetState_acquire_fatal_witness :
    ((GetState (scripted Nat)
        (some [(DIERR_INPUTLOST, 5), (E_ACCESSDENIED, 0), (E_FAIL, 0), (0, 9)]) 4 1).outcome
        = Outcome.raised E_FAIL ∧
      (GetState (scripted Nat)
        (some [(DIERR_INPUTLOST, 5), (E_ACCESSDENIED, 0), (E_FAIL, 0), (0, 9)]) 4 1).calls
        = [DriverCall.read DIERR_INPUTLOST 1, DriverCall.acquire E_ACCESSDENIED,
            DriverCall.acquire E_FAIL]) ∧
    ((GetState (scripted Nat)
        (some [(DIERR_INPUTLOST, 5), (0, 0), (DIERR_NOTACQUIRED, 0), (E_FAIL, 0), (0, 9)])
        4 1).outcome = Outcome.raised E_FAIL ∧
      (GetState (scripted Nat)
        (some [(DIERR_INPUTLOST, 5), (0, 0), (DIERR_NOTACQUIRED, 0), (E_FAIL, 0), (0, 9)])
        4 1).calls
        = [DriverCall.read DIERR_INPUTLOST 1, DriverCall.acquire 0,
            DriverCall.read DIERR_NOTACQUIRED 1, DriverCall.acquire E_FAIL]) :=
  ⟨(GetState_acquire_fatal (scripted Nat)
      [(DIERR_INPUTLOST, 5), (E_ACCESSDENIED, 0), (E_FAIL, 0), (0, 9)] 4 1 _ _ _ _ _ _ _ _ _
      rfl rfl rfl rfl rfl rfl rfl rfl rfl).2.1
      (by decide) (by decide) (by decide) (by decide) (by decide),
    (GetState_acquire_fatal (scripted Nat)
      [(DIERR_INPUTLOST, 5), (0, 0), (DIERR_NOTACQUIRED, 0), (E_FAIL, 0), (0, 9)] 4 1
      _ _ _ _ _ _ _ _ _ rfl rfl rfl rfl rfl rfl rfl rfl rfl).2.2.1
      (by decide) (by decide) (by decide) (by decide) (by decide) (by decide)⟩

/-- C8, as stated, fails: on the driver `scribbling` every read fails with
`DIERR_NOTACQUIRED` and every acquire with `DIERR_INPUTLOST`, `GetState`
returns `false` after 2 reads and 4 acquires, and the buffer, 1 before the
call, holds 21 after it. -/
theorem GetState_exhaustion_buffer_modified :
    (∀ (t : Unit) (n b : Nat), (scribbling.GetDeviceState t n b).status = DIERR_NOTACQUIRED) ∧
      (∀ t : Unit, (scribbling.Acquire t).status = DIERR_INPUTLOST) ∧
      (GetState scribbling (some ()) 4 1).outcome = Outcome.returned false ∧
      readCount (GetState scribbling (some ()) 4 1).calls = 2 ∧
      acquireCount (GetState scribbling (some ()) 4 1).calls = 4 ∧
      (GetState scribbling (some ()) 4 1).buf = 21 ∧
      (GetState scribbling (some ()) 4 1).buf ≠ 1 :=
  ⟨fun _ _ _ => rfl, fun _ => rfl, by decide, by decide, by decide, by decide, by decide⟩

/-- C8, amended: if the driver answers both reads with `DIERR_NOTACQUIRED`
and all four acquires with `DIERR_INPUTLOST`, `GetState` returns `false` (so
it does not raise) after exactly 2 reads and exactly 2 × 2 = 4 acquires; the
buffer is as the second failed read left it, and so as before the call when
neither failed read wrote to it.  `r1`, `a1`, `a2` are the driver's answers
in the first iteration and `r3`, `c1`, `c2` those in the second. -/
theorem GetState_exhaustion (d : IDirectInputDevice8W σ β) (s : σ) (size : Nat) (ptr : β)
    (r1 r3 : ReadResult σ β) (a1 a2 c1 c2 : AcquireResult σ)
    (e1 : d.GetDeviceState s size ptr = r1)
    (e2 : d.Acquire r1.dev = a1)
    (e3 : d.Acquire a1.dev = a2)
    (e7 : d.GetDeviceState a2.dev size r1.buf = r3)
    (e8 : d.Acquire r3.dev = c1)
    (e9 : d.Acquire c1.dev = c2)
    (h1 : r1.status = DIERR_NOTACQUIRED)
    (h2 : a1.status = DIERR_INPUTLOST)
    (h3 : a2.status = DIERR_INPUTLOST)
    (h4 : r3.status = DIERR_NOTACQUIRED)
    (h5 : c1.status = DIERR_INPUTLOST)
    (h6 : c2.status = DIERR_INPUTLOST) :
    (GetState d (some s) size ptr).outcome = Outcome.returned false ∧
      (GetState d (some s) size ptr).calls =
        [DriverCall.read r1.status r1.buf, DriverCall.acquire a1.status,
          DriverCall.acquire a2.status, DriverCall.read r3.status r3.buf,
          DriverCall.acquire c1.status, DriverCall.acquire c2.status] ∧
      readCount (GetState d (some s) size ptr).calls = 2 ∧
      acquireCount (GetState d (some s) size ptr).calls = 2 * 2 ∧
      (GetState d (some s) size ptr).buf = r3.buf ∧
      (r1.buf = ptr → r3.buf = r1.buf → (GetState d (some s) size ptr).buf = ptr) := by
  subst e9 e8 e7 e3 e2 e1
  rw [GetState_some_eq,
    stateLoop_of_pass d size (0 + 1) s ptr (Or.inr h1) _ _
      (acquireLoop_of_retry d _ (Or.inl h2) (Or.inr (Or.inl h3))),
    stateLoop_last_of_retry d size _ _ (Or.inr h4) (Or.inl h5) (Or.inr (Or.inl h6))]
  refine ⟨rfl, by simp, ?_, ?_, rfl, fun hb1 hb3 => ?_⟩
  · simp [readCount, DriverCall.isRead]
  · simp [acquireCount, DriverCall.isAcquire]
  · exact hb3.trans hb1

/-- Witness of C8 amended: the script answers `DIERR_NOTACQUIRED` to both
reads and `DIERR_INPUTLOST` to all four acquires; the scripted driver writes
nothing on a failed read and the buffer still holds `1`. -/
theorem GetState_exhaustion_witness :
    (GetState (scripted Nat)
        (some [(DIERR_NOTACQUIRED, 5), (DIERR_INPUTLOST, 0), (DIERR_INPUTLOST, 0),
          (DIERR_NOTACQUIRED, 6), (DIERR_INPUTLOST, 0), (DIERR_INPUTLOST, 0)]) 4 1).outcome
        = Outcome.returned false ∧
      (GetState (scripted Nat)
        (some [(DIERR_NOTACQUIRED, 5), (DIERR_INPUTLOST, 0), (DIERR_INPUTLOST, 0),
          (DIERR_NOTACQUIRED, 6), (DIERR_INPUTLOST, 0), (DIERR_INPUTLOST, 0)]) 4 1).calls =
        [DriverCall.read DIERR_NOTACQUIRED 1, DriverCall.acquire DIERR_INPUTLOST,
          DriverCall.acquire DIERR_INPUTLOST, DriverCall.read DIERR_NOTACQUIRED 1,
          DriverCall.acquire DIERR_INPUTLOST, DriverCall.acquire DIERR_INPUTLOST] ∧
      (GetState (scripted Nat)
        (some [(DIERR_NOTACQUIRED, 5), (DIERR_INPUTLOST, 0), (DIERR_INPUTLOST, 0),
          (DIERR_NOTACQUIRED, 6), (DIERR_INPUTLOST, 0), (DIERR_INPUTLOST, 0)]) 4 1).buf = 1 :=
  ⟨(GetState_exhaustion (scripted Nat)
      [(DIERR_NOTACQUIRED, 5), (DIERR_INPUTLOST, 0), (DIERR_INPUTLOST, 0),
        (DIERR_NOTACQUIRED, 6), (DIERR_INPUTLOST, 0), (DIERR_INPUTLOST, 0)] 4 1 _ _ _ _ _ _
      rfl rfl rfl rfl rfl rfl rfl rfl rfl rfl rfl rfl).1,
    (GetState_exhaustion (scripted Nat)
      [(DIERR_NOTACQUIRED, 5), (DIERR_INPUTLOST, 0), (DIERR_INPUTLOST, 0),
        (DIERR_NOTACQUIRED, 6), (DIERR_INPUTLOST, 0), (DIERR_INPUTLOST, 0)] 4 1 _ _ _ _ _ _
      rfl rfl rfl rfl rfl rfl rfl rfl rfl rfl rfl rfl).2.1,
    (GetState_exhaustion (scripted Nat)
      [(DIERR_NOTACQUIRED, 5), (DIERR_INPUTLOST, 0), (DIERR_INPUTLOST, 0),
        (DIERR_NOTACQUIRED, 6), (DIERR_INPUTLOST, 0), (DIERR_INPUTLOST, 0)] 4 1 _ _ _ _ _ _
      rfl rfl rfl rfl rfl rfl rfl rfl rfl rfl rfl rfl).2.2.2.2.2 rfl rfl⟩

/-- C19: `GetState` with a present handle returns `false` exactly when, on
the driver's answers, both reads are transient failures and neither inner
loop raises; the run then ends with the acquire (or the two acquires) the
driver answered after the second read, also when that last acquire succeeded,
so the last driver call is an acquire and not a read.  `r1`, `a1`, `a2` are
the driver's answers in the first iteration; `r2`, `b1`, `b2` those in the
second iteration when `a1` succeeded; `r3`, `c1`, `c2` those in the second
iteration when `a1` was transient. -/
theorem GetState_false_ends_with_acquire (d : IDirectInputDevice8W σ β) (s : σ) (size : Nat)
    (ptr : β) (r1 r2 r3 : ReadResult σ β) (a1 a2 b1 b2 c1 c2 : AcquireResult σ)
    (e1 : d.GetDeviceState s size ptr = r1)
    (e2 : d.Acquire r1.dev = a1)
    (e3 : d.Acquire a1.dev = a2)
    (e4 : d.GetDeviceState a1.dev size r1.buf = r2)
    (e5 : d.Acquire r2.dev = b1)
    (e6 : d.Acquire b1.dev = b2)
    (e7 : d.GetDeviceState a2.dev size r1.buf = r3)
    (e8 : d.Acquire r3.dev = c1)
    (e9 : d.Acquire c1.dev = c2) :
    ((GetState d (some s) size ptr).outcome = Outcome.returned false ↔
        ((r1.status = DIERR_INPUTLOST ∨ r1.status = DIERR_NOTACQUIRED) ∧
          SUCCEEDED a1.status = true ∧
          (r2.status = DIERR_INPUTLOST ∨ r2.status = DIERR_NOTACQUIRED) ∧
          (SUCCEEDED b1.status = true ∨
            ((b1.status = DIERR_INPUTLOST ∨ b1.status = E_ACCESSDENIED) ∧
              (SUCCEEDED b2.status = true ∨ b2.status = DIERR_INPUTLOST ∨
                b2.status = E_ACCESSDENIED)))) ∨
        ((r1.status = DIERR_INPUTLOST ∨ r1.status = DIERR_NOTACQUIRED) ∧
          (a1.status = DIERR_INPUTLOST ∨ a1.status = E_ACCESSDENIED) ∧
          (SUCCEEDED a2.status = true ∨ a2.status = DIERR_INPUTLOST ∨
            a2.status = E_ACCESSDENIED) ∧
          (r3.status = DIERR_INPUTLOST ∨ r3.status = DIERR_NOTACQUIRED) ∧
          (SUCCEEDED c1.status = true ∨
            ((c1.status = DIERR_INPUTLOST ∨ c1.status = E_ACCESSDENIED) ∧
              (SUCCEEDED c2.status = true ∨ c2.status = DIERR_INPUTLOST ∨
                c2.status = E_ACCESSDENIED))))) ∧
      ((r1.status = DIERR_INPUTLOST ∨ r1.status = DIERR_NOTACQUIRED) →
        SUCCEEDED a1.status = true →
        (r2.status = DIERR_INPUTLOST ∨ r2.status = DIERR_NOTACQUIRED) →
        SUCCEEDED b1.status = true →
        (GetState d (some s) size ptr).calls =
          [DriverCall.read r1.status r1.buf, DriverCall.acquire a1.status,
            DriverCall.read r2.status r2.buf, DriverCall.acquire b1.status]) ∧
      ((r1.status = DIERR_INPUTLOST ∨ r1.status = DIERR_NOTACQUIRED) →
        SUCCEEDED a1.status = true →
        (r2.status = DIERR_INPUTLOST ∨ r2.status = DIERR_NOTACQUIRED) →
        (b1.status = DIERR_INPUTLOST ∨ b1.status = E_ACCESSDENIED) →
        (SUCCEEDED b2.status = true ∨ b2.status = DIERR_INPUTLOST ∨
          b2.status = E_ACCESSDENIED) →
        (GetState d (some s) size ptr).calls =
          [DriverCall.read r1.status r1.buf, DriverCall.acquire a1.status,
            DriverCall.read r2.status r2.buf, DriverCall.acquire b1.status,
            DriverCall.acquire b2.status]) ∧
      ((r1.status = DIERR_INPUTLOST ∨ r1.status = DIERR_NOTACQUIRED) →
        (a1.status = DIERR_INPUTLOST ∨ a1.status = E_ACCESSDENIED) →
        (SUCCEEDED a2.status = true ∨ a2.status = DIERR_INPUTLOST ∨
          a2.status = E_ACCESSDENIED) →
        (r3.status = DIERR_INPUTLOST ∨ r3.status = DIERR_NOTACQUIRED) →
        SUCCEEDED c1.status = true →
        (GetState d (some s) size ptr).calls =
          [DriverCall.read r1.status r1.buf, DriverCall.acquire a1.status,
            DriverCall.acquire a2.status, DriverCall.read r3.status r3.buf,
            DriverCall.acquire c1.status]) ∧
      ((r1.status = DIERR_INPUTLOST ∨ r1.status = DIERR_NOTACQUIRED) →
        (a1.status = DIERR_INPUTLOST ∨ a1.status = E_ACCESSDENIED) →
        (SUCCEEDED a2.status = true ∨ a2.status = DIERR_INPUTLOST ∨
          a2.status = E_ACCESSDENIED) →
        (r3.status = DIERR_INPUTLOST ∨ r3.status = DIERR_NOTACQUIRED) →
        (c1.status = DIERR_INPUTLOST ∨ c1.status = E_ACCESSDENIED) →
        (SUCCEEDED c2.status = true ∨ c2.status = DIERR_INPUTLOST ∨
          c2.status = E_ACCESSDENIED) →
        (GetState d (some s) size ptr).calls =
          [DriverCall.read r1.status r1.buf, DriverCall.acquire a1.status,
            DriverCall.acquire a2.status, DriverCall.read r3.status r3.buf,
            DriverCall.acquire c1.status, DriverCall.acquire c2.status]) ∧
      ((GetState d (some s) size ptr).outcome = Outcome.returned false →
        readCount (GetState d (some s) size ptr).calls = 2 ∧
        ∃ pre hr, (GetState d (some s) size ptr).calls = pre ++ [DriverCall.acquire hr]) := by
  subst e9 e8 e7 e6 e5 e4 e3 e2 e1
  refine ⟨⟨fun h => ?_, fun h => ?_⟩, fun ht h1 ht2 h3 => ?_, fun ht h1 ht2 h3 h4 => ?_,
    fun ht h1 h2 ht2 h3 => ?_, fun ht h1 h2 ht2 h3 h4 => ?_, fun h => ?_⟩
  · rw [GetState_some_eq] at h
    obtain ⟨ht, hn⟩ := stateLoop_false_cases d size (0 + 1) s ptr h
    rcases acquireLoop_none_cases d _ hn with h1 | ⟨h1, h2⟩
    · rw [stateLoop_of_pass d size (0 + 1) s ptr ht _ _ (acquireLoop_of_success d _ h1)] at h
      obtain ⟨ht2, hn2⟩ := stateLoop_false_cases d size 0 _ _ h
      exact Or.inl ⟨ht, h1, ht2, acquireLoop_none_cases d _ hn2⟩
    · rw [stateLoop_of_pass d size (0 + 1) s ptr ht _ _ (acquireLoop_of_retry d _ h1 h2)] at h
      obtain ⟨ht2, hn2⟩ := stateLoop_false_cases d size 0 _ _ h
      exact Or.inr ⟨ht, h1, h2, ht2, acquireLoop_none_cases d _ hn2⟩
  · rcases h with ⟨ht, h1, ht2, h3 | ⟨h3, h4⟩⟩ | ⟨ht, h1, h2, ht2, h3 | ⟨h3, h4⟩⟩
    · rw [GetState_some_eq,
        stateLoop_of_pass d size (0 + 1) s ptr ht _ _ (acquireLoop_of_success d _ h1),
        stateLoop_last_of_success d size _ _ ht2 h3]
    · rw [GetState_some_eq,
        stateLoop_of_pass d size (0 + 1) s ptr ht _ _ (acquireLoop_of_success d _ h1),
        stateLoop_last_of_retry d size _ _ ht2 h3 h4]
    · rw [GetState_some_eq,
        stateLoop_of_pass d size (0 + 1) s ptr ht _ _ (acquireLoop_of_retry d _ h1 h2),
        stateLoop_last_of_success d size _ _ ht2 h3]
    · rw [GetState_some_eq,
        stateLoop_of_pass d size (0 + 1) s ptr ht _ _ (acquireLoop_of_retry d _ h1 h2),
        stateLoop_last_of_retry d size _ _ ht2 h3 h4]
  · rw [GetState_some_eq,
      stateLoop_of_pass d size (0 + 1) s ptr ht _ _ (acquireLoop_of_success d _ h1),
      stateLoop_last_of_success d size _ _ ht2 h3]
    simp
  · rw [GetState_some_eq,
      stateLoop_of_pass d size (0 + 1) s ptr ht _ _ (acquireLoop_of_success d _ h1),
      stateLoop_last_of_retry d size _ _ ht2 h3 h4]
    simp
  · rw [GetState_some_eq,
      stateLoop_of_pass d size (0 + 1) s ptr ht _ _ (acquireLoop_of_retry d _ h1 h2),
      stateLoop_last_of_success d size _ _ ht2 h3]
    simp
  · rw [GetState_some_eq,
      stateLoop_of_pass d size (0 + 1) s ptr ht _ _ (acquireLoop_of_retry d _ h1 h2),
      stateLoop_last_of_retry d size _ _ ht2 h3 h4]
    simp
  · obtain ⟨hcnt, hlast⟩ := stateLoop_false_last d size GET_STATE_RETRIES s ptr h
    exact ⟨hcnt, hlast (by decide)⟩

/-- Witness of C19: read `DIERR_NOTACQUIRED`, acquire `DIERR_INPUTLOST`
twice, read `DIERR_NOTACQUIRED`, acquire succeeds: the result is `false` after
2 reads and 3 acquires, the last call being the successful acquire. -/
theorem GetState_false_ends_with_acquire_witness :
    (GetState (scripted Nat)
        (some [(DIERR_NOTACQUIRED, 5), (DIERR_INPUTLOST, 0), (DIERR_INPUTLOST, 0),
          (DIERR_NOTACQUIRED, 6), (0, 0)]) 4 1).outcome = Outcome.returned false ∧
      (GetState (scripted Nat)
        (some [(DIERR_NOTACQUIRED, 5), (DIERR_INPUTLOST, 0), (DIERR_INPUTLOST, 0),
          (DIERR_NOTACQUIRED, 6), (0, 0)]) 4 1).calls =
        [DriverCall.read DIERR_NOTACQUIRED 1, DriverCall.acquire DIERR_INPUTLOST,
          DriverCall.acquire DIERR_INPUTLOST, DriverCall.read DIERR_NOTACQUIRED 1,
          DriverCall.acquire 0] ∧
      readCount (GetState (scripted Nat)
        (some [(DIERR_NOTACQUIRED, 5), (DIERR_INPUTLOST, 0), (DIERR_INPUTLOST, 0),
          (DIERR_NOTACQUIRED, 6), (0, 0)]) 4 1).calls = 2 ∧
      acquireCount (GetState (scripted Nat)
        (some [(DIERR_NOTACQUIRED, 5), (DIERR_INPUTLOST, 0), (DIERR_INPUTLOST, 0),
          (DIERR_NOTACQUIRED, 6), (0, 0)]) 4 1).calls = 3 :=
  ⟨(GetState_false_ends_with_acquire (scripted Nat)
      [(DIERR_NOTACQUIRED, 5), (DIERR_INPUTLOST, 0), (DIERR_INPUTLOST, 0),
        (DIERR_NOTACQUIRED, 6), (0, 0)] 4 1 _ _ _ _ _ _ _ _ _
      rfl rfl rfl rfl rfl rfl rfl rfl rfl).1.mpr
      (Or.inr ⟨by decide, by decide, by decide, by decide, Or.inl (by decide)⟩),
    (GetState_false_ends_with_acquire (scripted Nat)
      [(DIERR_NOTACQUIRED, 5), (DIERR_INPUTLOST, 0), (DIERR_INPUTLOST, 0),
        (DIERR_NOTACQUIRED, 6), (0, 0)] 4 1 _ _ _ _ _ _ _ _ _
      rfl rfl rfl rfl rfl rfl rfl rfl rfl).2.2.2.1
      (by decide) (by decide) (by decide) (by decide) (by decide),
    ((GetState_false_ends_with_acquire (scripted Nat)
      [(DIERR_NOTACQUIRED, 5), (DIERR_INPUTLOST, 0), (DIERR_INPUTLOST, 0),
        (DIERR_NOTACQUIRED, 6), (0, 0)] 4 1 _ _ _ _ _ _ _ _ _
      rfl rfl rfl rfl rfl rfl rfl rfl rfl).2.2.2.2.2 (by decide)).1,
    by decide⟩

end OnAnswers

end gk2
